import Mathlib

/-!
Verification development for the smart-agent gateway: a shallow embedding of
the device orchestration and state-reconciliation engine (runtime device
table, GPIO polarity mapping, automatic threshold control, manual commands,
config persistence, provider subscription hand-off, backend offline queue,
heartbeat safety shutdown), with theorems settling the specification claims.
-/

namespace SmartAgent

/-- Device operating mode, from app/domain/models/agent_config.py (DeviceMode). -/
inductive DeviceMode where
  | MANUAL
  | AUTO
  | SCHEDULE
  | SCHEDULER
deriving DecidableEq, Repr

/-- Raw GPIO levels, from the hardware capability (RPi-style constants). -/
def GPIO.HIGH : Nat := 1

/-- Raw GPIO low level. -/
def GPIO.LOW : Nat := 0

/-- From GPIOController.read_pin (app/infrastructure/gpio/gpio_controller.py):
the hardware read outcome is modelled as an Option, where none stands for a
raised exception; on an exception the function returns GPIO.HIGH instead of
propagating the error. -/
def read_pin (hw : Option Nat) : Nat :=
  match hw with
  | some raw => raw
  | none => GPIO.HIGH

/-- From GPIOManager.raw_to_is_on (app/infrastructure/gpio/gpio_manager.py):
maps a raw pin level to the logical ON/OFF through the device's active_low
polarity (active_low: raw LOW means ON; otherwise raw HIGH means ON). -/
def raw_to_is_on (active_low : Bool) (raw : Nat) : Bool :=
  if active_low then raw == GPIO.LOW else raw == GPIO.HIGH

/-- From GPIOController.direct_pin_control and the hardware write capability:
the raw level written for a logical state under the given polarity. -/
def logical_to_raw (active_low : Bool) (is_on : Bool) : Nat :=
  if active_low then (if is_on then GPIO.LOW else GPIO.HIGH)
  else (if is_on then GPIO.HIGH else GPIO.LOW)

/-- Merged runtime device, from app/domain/gpio/runtime_device.py. -/
structure RuntimeDevice where
  device_id : Int
  device_uuid : String
  device_number : Nat
  gpio : Nat
  active_low : Bool
  mode : DeviceMode
  rated_power : Option ℚ := none
  threshold_value : Option ℚ := none
  desired_state : Option Bool := none
deriving DecidableEq, Repr

/-- Modelled from the spec: the Runtime Device Manager's live state. The
by-number manager (devices_by_number table plus GPIO access) is referenced
by the services in src but its definition module is not present there; spec
section 4.2 describes it. The table is the ordered device list keyed by
device_number, and pins gives the raw hardware level of every GPIO pin. -/
structure ManagerState where
  devices_by_number : List RuntimeDevice
  pins : Nat → Nat

/-- Modelled from the spec: lookup of a runtime device by device_number
(gpio_manager.get_by_number as used by the services in src). -/
def get_by_number (m : ManagerState) (n : Nat) : Option RuntimeDevice :=
  m.devices_by_number.find? (fun d => d.device_number == n)

/-- Modelled from the spec (section 4.2 read_is_on): reads the raw pin level
and maps it to logical ON/OFF via active_low; an unknown device reads false. -/
def read_is_on_by_number (m : ManagerState) (n : Nat) : Bool :=
  match get_by_number m n with
  | none => false
  | some d => raw_to_is_on d.active_low (m.pins d.gpio)

/-- Table rewrite storing a device's new desired_state after a confirmed
write, used inside set_state. -/
def set_desired_fn (n : Nat) (is_on : Bool) (e : RuntimeDevice) : RuntimeDevice :=
  if e.device_number = n then { e with desired_state := some is_on } else e

/-- Modelled from the spec (section 4.2 set_state): writes the physical pin
and updates desired_state; returns false when the device is unknown. -/
def set_state_by_number (m : ManagerState) (n : Nat) (is_on : Bool) :
    ManagerState × Bool :=
  match get_by_number m n with
  | none => (m, false)
  | some d =>
      ({ devices_by_number := m.devices_by_number.map (set_desired_fn n is_on),
         pins := fun p =>
           if p = d.gpio then logical_to_raw d.active_low is_on else m.pins p }, true)

/-- Modelled from the spec (section 4.2 force_all_off): unconditionally
writes OFF to every managed pin and sets desired_state to false; each device
is attempted independently, in table order. -/
def force_all_off (m : ManagerState) (reason : String) : ManagerState :=
  let _ := reason
  { devices_by_number :=
      m.devices_by_number.map (fun d => { d with desired_state := some false }),
    pins :=
      m.devices_by_number.foldl
        (fun pins d => fun p =>
          if p = d.gpio then logical_to_raw d.active_low false else pins p)
        m.pins }

/-- Initial-state target of a device on reload: OFF unless the device is
MANUAL with a persisted desired_state. -/
def initial_target (d : RuntimeDevice) : Bool :=
  match d.mode, d.desired_state with
  | DeviceMode.MANUAL, some v => v
  | _, _ => false

/-- Per-device pin application during load_devices: initialize the pin to
the safe OFF state, then if the mode is MANUAL and desired_state is set,
write that logical value. -/
def apply_initial_state (pins : Nat → Nat) (d : RuntimeDevice) : Nat → Nat :=
  let pins1 : Nat → Nat :=
    fun p => if p = d.gpio then logical_to_raw d.active_low false else pins p
  match d.mode, d.desired_state with
  | DeviceMode.MANUAL, some v =>
      fun p => if p = d.gpio then logical_to_raw d.active_low v else pins1 p
  | _, _ => pins1

/-- Modelled from the spec (section 4.2 load_devices): rejects a list with a
duplicate device_number; otherwise replaces the table wholesale and applies
the initial pin state of every device in order. -/
def load_devices (m : ManagerState) (devices : List RuntimeDevice) :
    Except String ManagerState :=
  if (devices.map (fun d => d.device_number)).Nodup then
    Except.ok
      { devices_by_number := devices,
        pins := devices.foldl apply_initial_state m.pins }
  else
    Except.error "duplicate device_number"

/-- Table rewrite used when a service mutates a runtime device in place
(mode and desired_state assignments on the object held in the table). -/
def set_mode_desired_fn (n : Nat) (mode : DeviceMode) (desired : Option Bool)
    (d : RuntimeDevice) : RuntimeDevice :=
  if d.device_number = n then { d with mode := mode, desired_state := desired } else d

/-- In-place mode and desired_state assignment on the table entry held by a
service, as performed by gpio_service on the object it located. -/
def update_runtime_device (m : ManagerState) (n : Nat) (mode : DeviceMode)
    (desired : Option Bool) : ManagerState :=
  { m with devices_by_number := m.devices_by_number.map (set_mode_desired_fn n mode desired) }

/-- Per-device domain configuration, from app/domain/models/agent_config.py
(DeviceConfig). -/
structure DeviceConfig where
  device_id : Int
  device_uuid : String
  device_number : Nat
  mode : DeviceMode
  rated_power : Option ℚ := none
  threshold_value : Option ℚ := none
  desired_state : Option Bool := none
deriving DecidableEq, Repr

/-- Domain configuration root, from app/domain/models/agent_config.py
(AgentConfig); the devices map is an association list keyed by device_number. -/
structure AgentConfig where
  config_version : Nat
  microcontroller_uuid : String
  provider_uuid : String
  heartbeat_interval : Nat
  device_max : Nat
  devices : List (Nat × DeviceConfig)
deriving DecidableEq, Repr

/-- Hardware wiring entry, from app/domain/models/hardware_config.py. -/
structure HardwareDeviceConfig where
  gpio : Nat
  active_low : Option Bool := none
deriving DecidableEq, Repr

/-- Hardware configuration root, from app/domain/models/hardware_config.py;
the devices map is an association list keyed by device_number. -/
structure HardwareConfig where
  config_version : Nat
  default_active_low : Bool
  devices : List (Nat × HardwareDeviceConfig)
deriving DecidableEq, Repr

/-- Association-list lookup for the devices map of a domain config. -/
def lookup_device (cfg : AgentConfig) (n : Nat) : Option DeviceConfig :=
  (cfg.devices.find? (fun kv => kv.fst == n)).map (fun kv => kv.snd)

/-- Association-list lookup for the devices map of a hardware config. -/
def lookup_hw_device (cfg : HardwareConfig) (n : Nat) : Option HardwareDeviceConfig :=
  (cfg.devices.find? (fun kv => kv.fst == n)).map (fun kv => kv.snd)

/-- Rewrite of one entry of the domain config's devices map. -/
def set_config_device (cfg : AgentConfig) (n : Nat) (dc : DeviceConfig) : AgentConfig :=
  { cfg with
    devices := cfg.devices.map (fun kv => if kv.fst = n then (kv.fst, dc) else kv) }

/-- Ascending insertion of a key into a sorted key list. -/
def insert_sorted (n : Nat) : List Nat → List Nat
  | [] => [n]
  | m :: rest => if n ≤ m then n :: m :: rest else m :: insert_sorted n rest

/-- Ascending insertion sort over device numbers, modelling Python's
sorted() over the device map keys. -/
def sort_keys : List Nat → List Nat
  | [] => []
  | n :: rest => insert_sorted n (sort_keys rest)

/-- From merge_configs (app/application/device_factory.py): joins the domain
and hardware configs on device_number in ascending key order, failing on a
missing hardware entry, a key/payload mismatch, a device count above
device_max, or a duplicate device_id or device_uuid. -/
def merge_configs (agent_config : AgentConfig) (hardware_config : HardwareConfig) :
    Except String (List RuntimeDevice) :=
  if agent_config.devices.length > agent_config.device_max then
    Except.error "configured devices exceed device_max"
  else
    let keys := sort_keys (agent_config.devices.map (fun kv => kv.fst))
    go keys [] [] []
where
  /-- Fold over the sorted device numbers accumulating merged devices and the
  seen device_id and device_uuid sets. -/
  go : List Nat → List Int → List String → List RuntimeDevice →
      Except String (List RuntimeDevice)
  | [], _, _, acc => Except.ok acc.reverse
  | n :: rest, seen_ids, seen_uuids, acc =>
      match lookup_device agent_config n with
      | none => Except.error "missing domain device"
      | some dd =>
          if dd.device_number ≠ n then
            Except.error "device mapping mismatch"
          else
            match lookup_hw_device hardware_config n with
            | none => Except.error "device number missing in hardware config"
            | some hw =>
                if dd.device_id ∈ seen_ids then
                  Except.error "duplicate device_id"
                else if dd.device_uuid ∈ seen_uuids then
                  Except.error "duplicate device_uuid"
                else
                  go rest (dd.device_id :: seen_ids) (dd.device_uuid :: seen_uuids)
                    ({ device_id := dd.device_id,
                       device_uuid := dd.device_uuid,
                       device_number := dd.device_number,
                       gpio := hw.gpio,
                       active_low := hw.active_low.getD false,
                       mode := dd.mode,
                       rated_power := dd.rated_power,
                       threshold_value := dd.threshold_value,
                       desired_state := dd.desired_state } :: acc)

/-- Outcome of one domain-config disk write, abstracting the filesystem in
DomainConfigRepository._write_json_with_fallback: the atomic temp-file
replace may succeed; it may fail with a retryable errno (EBUSY/EXDEV/EPERM)
and recover through the in-place fallback write; it may fail with a
non-retryable errno, which is re-raised before the real config file is ever
opened (only the temp file was written); or the replace may fail retryably
and the in-place fallback write itself raise — that fallback opened the real
config file for writing, truncating it, before json.dump, so this outcome
leaves the file an unparseable partial prefix of the candidate. -/
inductive WriteOutcome where
  | atomicOk
  | fallbackOk
  | replaceFatal
  | fallbackFail
deriving DecidableEq, Repr

/-- Whether a write outcome ends with the new data durably on disk. -/
def WriteOutcome.ok : WriteOutcome → Bool
  | WriteOutcome.atomicOk => true
  | WriteOutcome.fallbackOk => true
  | WriteOutcome.replaceFatal => false
  | WriteOutcome.fallbackFail => false

/-- Content of the on-disk domain config file: either an intact JSON dump of
a config, or the truncated partial prefix left behind when the in-place
fallback write opened the file for writing and then raised mid-dump; the
attempted candidate is carried only to say whose dump was cut short — the
bytes on disk do not parse back to it. -/
inductive DiskFile where
  | intact (cfg : AgentConfig)
  | truncated (attempted : AgentConfig)
deriving DecidableEq, Repr

/-- From DomainConfigRepository (app/infrastructure/config/domain_config_repository.py):
the in-memory cached config and the on-disk config file. -/
structure Repo where
  cache : Option AgentConfig
  disk : DiskFile
deriving DecidableEq, Repr

/-- From DomainConfigRepository.load: returns the cached config when present,
otherwise reads and parses the disk file and caches the result. Parsing a
truncated file raises json.JSONDecodeError in the program; that branch is
unreachable through the modelled operations, because the only operation that
truncates the disk (an update whose fallback write fails) has already stored
the candidate in the cache, and load prefers the cache — so the value
returned there is immaterial and present only to keep the function total. -/
def Repo.load (r : Repo) : Repo × AgentConfig :=
  match r.cache with
  | some c => (r, c)
  | none =>
      match r.disk with
      | DiskFile.intact cfg => ({ r with cache := some cfg }, cfg)
      | DiskFile.truncated attempted => (r, attempted)

/-- From DomainConfigRepository.update: loads, merges the caller's full dump
(callers pass a complete candidate config), assigns the in-memory cache to
the candidate, and only then saves; a save failure propagates as the Bool
false while the cache keeps the candidate. The save-time is_on re-computation
only affects the serialized extra field and is dropped again on load, so it
is not represented. A successful write leaves the candidate intact on disk.
A non-retryable replace failure leaves the real file untouched (only the
temp file was written). A failing in-place fallback write leaves the file
truncated mid-dump of the candidate. -/
def Repo.update (r : Repo) (cand : AgentConfig) (wo : WriteOutcome) : Repo × Bool :=
  let r0 := (Repo.load r).fst
  let r1 := { r0 with cache := some cand }
  match wo with
  | WriteOutcome.atomicOk => ({ r1 with disk := DiskFile.intact cand }, true)
  | WriteOutcome.fallbackOk => ({ r1 with disk := DiskFile.intact cand }, true)
  | WriteOutcome.replaceFatal => (r1, false)
  | WriteOutcome.fallbackFail => ({ r1 with disk := DiskFile.truncated cand }, false)

/-- Combined system state threaded through the application services: the
runtime device manager plus the domain config repository. -/
structure SysState where
  manager : ManagerState
  repo : Repo

/-- Backend and bus side effects recorded while a handler runs. -/
inductive Action where
  | backendEvent (device_number : Nat) (event_type : String) (is_on : Option Bool)
      (trigger : String)
  | syncConfig (device_number : Nat)
  | streamEvent (device_number : Nat) (event_type : String) (trigger : String)
  | heartbeatNow
deriving DecidableEq, Repr

/-- From GPIOService.sync_device_state_to_config (app/application/gpio_service.py):
loads the domain config, re-reads the device's measured state, rewrites the
candidate entry (desired_state is the actual state in MANUAL mode and null
otherwise), persists through the repository, and mirrors mode/desired_state
into the runtime device; any raised persistence error is caught and reported
as false. -/
def sync_device_state_to_config (sys : SysState) (wo : WriteOutcome)
    (device_number : Nat) (mode_override : Option DeviceMode) : SysState × Bool :=
  let lr := Repo.load sys.repo
  match lookup_device lr.snd device_number with
  | none => ({ sys with repo := lr.fst }, false)
  | some dev =>
      let actual := read_is_on_by_number sys.manager device_number
      let mode := mode_override.getD dev.mode
      let desired : Option Bool := if mode = DeviceMode.MANUAL then some actual else none
      let cand := set_config_device lr.snd device_number
        { dev with mode := mode, desired_state := desired }
      let ur := Repo.update lr.fst cand wo
      if ur.snd then
        ({ manager := update_runtime_device sys.manager device_number mode desired,
           repo := ur.fst }, true)
      else
        ({ sys with repo := ur.fst }, false)

/-- Whether a device mode counts as AUTO, from
PowerReadingService._is_auto_mode (string-value comparison; the four mode
values are pairwise distinct strings, so this is mode equality). -/
def is_auto_mode (m : DeviceMode) : Bool :=
  m == DeviceMode.AUTO

/-- The backend event emitted when syncing the AUTO state to config fails,
from PowerReadingService._sync_state_or_log_error. -/
def sync_failed_event (n : Nat) (is_on : Bool) : Action :=
  Action.backendEvent n "ERROR" (some is_on) "CONFIG_SYNC_FAILED"

/-- One iteration of the missing-power branch of
PowerReadingService.handle_power: force the device OFF; when the write is
rejected record a STATE_CHANGE_FAILED error; otherwise sync to config (with
its own error event on failure), report POWER_MISSING to the backend, publish
the device-event stream message and an immediate heartbeat. -/
def power_missing_step (wo : Nat → WriteOutcome) (acc : SysState × List Action)
    (d : RuntimeDevice) : SysState × List Action :=
  let sys := acc.fst
  let tr := acc.snd
  let sres := set_state_by_number sys.manager d.device_number false
  if sres.snd then
    let sys1 : SysState := { manager := sres.fst, repo := sys.repo }
    let syn := sync_device_state_to_config sys1 (wo d.device_number) d.device_number none
    (syn.fst,
      tr ++ ([Action.syncConfig d.device_number]
         ++ (if syn.snd then [] else [sync_failed_event d.device_number false])
         ++ [Action.backendEvent d.device_number "ERROR" (some false) "POWER_MISSING",
             Action.streamEvent d.device_number "ERROR" "POWER_MISSING",
             Action.heartbeatNow]))
  else
    (sys,
      tr ++ [Action.backendEvent d.device_number "ERROR"
        (some (read_is_on_by_number sys.manager d.device_number)) "STATE_CHANGE_FAILED"])

/-- One iteration of the present-power branch of
PowerReadingService.handle_power: an AUTO device with no threshold is logged
and skipped; otherwise the target is reading at or above threshold, an
unchanged device is skipped, and a changed one is written, synced, reported
as AUTO_TRIGGER and followed by a stream event and an immediate heartbeat. -/
def power_present_step (wo : Nat → WriteOutcome) (v : ℚ) (acc : SysState × List Action)
    (d : RuntimeDevice) : SysState × List Action :=
  let sys := acc.fst
  let tr := acc.snd
  match d.threshold_value with
  | none => (sys, tr)
  | some threshold =>
      let should_turn_on : Bool := decide (v ≥ threshold)
      let current_is_on := read_is_on_by_number sys.manager d.device_number
      if current_is_on = should_turn_on then
        (sys, tr)
      else
        let sres := set_state_by_number sys.manager d.device_number should_turn_on
        if sres.snd then
          let sys1 : SysState := { manager := sres.fst, repo := sys.repo }
          let syn := sync_device_state_to_config sys1 (wo d.device_number) d.device_number none
          (syn.fst,
            tr ++ ([Action.syncConfig d.device_number]
               ++ (if syn.snd then [] else [sync_failed_event d.device_number should_turn_on])
               ++ [Action.backendEvent d.device_number "AUTO_TRIGGER" (some should_turn_on)
                     "AUTO_TRIGGER",
                   Action.streamEvent d.device_number "AUTO_TRIGGER" "AUTO_TRIGGER",
                   Action.heartbeatNow]))
        else
          (sys,
            tr ++ [Action.backendEvent d.device_number "ERROR" (some current_is_on)
              "STATE_CHANGE_FAILED"])

/-- From PowerReadingService.handle_power (app/application/power_reading_service.py):
collects the AUTO devices first, returns immediately when there are none,
then runs the missing-power safety branch or the threshold branch over that
snapshot list, threading the system state and recording all side effects. -/
def handle_power (sys : SysState) (wo : Nat → WriteOutcome) (value : Option ℚ) :
    SysState × List Action :=
  let auto_devices := sys.manager.devices_by_number.filter (fun d => is_auto_mode d.mode)
  if auto_devices.isEmpty then (sys, [])
  else
    match value with
    | none => auto_devices.foldl (power_missing_step wo) (sys, [])
    | some v => auto_devices.foldl (power_present_step wo v) (sys, [])

/-- From GPIOService._collect_runtime_states: snapshot of the measured state
of every device in the runtime table, keyed by device_number. -/
def collect_runtime_states (m : ManagerState) : List (Nat × Bool) :=
  m.devices_by_number.map (fun d => (d.device_number, read_is_on_by_number m d.device_number))

/-- From GPIOService._emit_state_changes_after_reload: for every device in
the reloaded table compare the current measured state with the pre-reload
snapshot; a device absent from the snapshot is reported only when ON, an
unchanged device is skipped, and each reported device produces a backend
CONFIG_APPLY event, a stream event and an immediate heartbeat. -/
def emit_state_changes_after_reload (previous : List (Nat × Bool))
    (m : ManagerState) : List Action :=
  m.devices_by_number.foldl
    (fun tr d =>
      let current := read_is_on_by_number m d.device_number
      match (previous.find? (fun kv => kv.fst == d.device_number)).map (fun kv => kv.snd) with
      | none =>
          if current then
            tr ++ [Action.backendEvent d.device_number "STATE" (some current) "CONFIG_APPLY",
                   Action.streamEvent d.device_number "STATE" "CONFIG_APPLY",
                   Action.heartbeatNow]
          else tr
      | some prev =>
          if prev = current then tr
          else
            tr ++ [Action.backendEvent d.device_number "STATE" (some current) "CONFIG_APPLY",
                   Action.streamEvent d.device_number "STATE" "CONFIG_APPLY",
                   Action.heartbeatNow])
    []

/-- From GPIOService._persist_candidate_config: snapshot the runtime states,
merge the candidate with the hardware config, persist through the repository
and only on success reload the runtime device manager and emit the resulting
state-change events; a merge, persistence or reload error propagates to the
caller with the runtime manager left untouched. -/
def persist_candidate_config (sys : SysState) (hw : HardwareConfig)
    (wo : WriteOutcome) (cand : AgentConfig) : SysState × Except Unit (List Action) :=
  let previous := collect_runtime_states sys.manager
  match merge_configs cand hw with
  | Except.error _ => (sys, Except.error ())
  | Except.ok merged =>
      let ur := Repo.update sys.repo cand wo
      if ur.snd then
        match load_devices sys.manager merged with
        | Except.error _ => ({ sys with repo := ur.fst }, Except.error ())
        | Except.ok m2 =>
            ({ manager := m2, repo := ur.fst },
              Except.ok (emit_state_changes_after_reload previous m2))
      else
        ({ sys with repo := ur.fst }, Except.error ())

/-- Device-creation command payload, from app/domain/events/device_events.py
(DeviceCreatedPayload) as consumed by GPIOService.create_device. -/
structure DeviceCreatedPayload where
  device_id : Int
  device_uuid : String
  device_number : Nat
  mode : DeviceMode
  is_on : Bool
  rated_power : Option ℚ := none
  threshold_value : Option ℚ := none
deriving DecidableEq, Repr

/-- Device-update command payload; the two flags model pydantic's
model_fields_set membership tests for rated_power and threshold_value. -/
structure DeviceUpdatedPayload where
  device_id : Int
  device_uuid : String
  device_number : Nat
  mode : DeviceMode
  rated_power : Option ℚ := none
  threshold_value : Option ℚ := none
  rated_power_set : Bool := true
  threshold_value_set : Bool := true
deriving DecidableEq, Repr

/-- From GPIOService.create_device: validates the device number range, the
capacity and the absence of an existing entry, builds the candidate config
(desired_state is the requested state only in MANUAL mode) and persists it;
any persistence failure is caught and reported as false. -/
def create_device (sys : SysState) (hw : HardwareConfig) (wo : WriteOutcome)
    (payload : DeviceCreatedPayload) : SysState × Bool :=
  let lr := Repo.load sys.repo
  let sys0 : SysState := { sys with repo := lr.fst }
  let domain_config := lr.snd
  let n := payload.device_number
  if ¬ (1 ≤ n ∧ n ≤ domain_config.device_max) then (sys0, false)
  else if domain_config.devices.length ≥ domain_config.device_max then (sys0, false)
  else if (lookup_device domain_config n).isSome then (sys0, false)
  else
    let initial_desired : Option Bool :=
      if payload.mode = DeviceMode.MANUAL then some payload.is_on else none
    let cand : AgentConfig :=
      { domain_config with
        devices := domain_config.devices ++
          [(n, { device_id := payload.device_id,
                 device_uuid := payload.device_uuid,
                 device_number := n,
                 mode := payload.mode,
                 rated_power := payload.rated_power,
                 threshold_value := payload.threshold_value,
                 desired_state := initial_desired })] }
    let pr := persist_candidate_config sys0 hw wo cand
    match pr.snd with
    | Except.error _ => (pr.fst, false)
    | Except.ok _ => (pr.fst, true)

/-- From GPIOService.update_device: requires an existing entry, rewrites it
(clearing desired_state when leaving MANUAL, honoring the payload's set
fields), persists, and for non-MANUAL modes re-syncs the device state; a
persistence failure is caught and reported as false. -/
def update_device (sys : SysState) (hw : HardwareConfig) (wo : WriteOutcome)
    (payload : DeviceUpdatedPayload) : SysState × Bool :=
  let lr := Repo.load sys.repo
  let sys0 : SysState := { sys with repo := lr.fst }
  let domain_config := lr.snd
  let n := payload.device_number
  match lookup_device domain_config n with
  | none => (sys0, false)
  | some dev =>
      let dev1 := { dev with
        device_id := payload.device_id,
        device_uuid := if payload.device_uuid ≠ "" then payload.device_uuid else dev.device_uuid,
        device_number := n,
        mode := payload.mode,
        desired_state := if payload.mode ≠ DeviceMode.MANUAL then none else dev.desired_state,
        rated_power := if payload.rated_power_set then payload.rated_power else dev.rated_power,
        threshold_value :=
          if payload.threshold_value_set then payload.threshold_value else dev.threshold_value }
      let cand := set_config_device domain_config n dev1
      let pr := persist_candidate_config sys0 hw wo cand
      match pr.snd with
      | Except.error _ => (pr.fst, false)
      | Except.ok _ =>
          if payload.mode ≠ DeviceMode.MANUAL then
            let syn := sync_device_state_to_config pr.fst wo n none
            (syn.fst, syn.snd)
          else (pr.fst, true)

/-- From GPIOService.delete_device: requires an existing entry, removes it
from a candidate copy and persists; a persistence failure is caught and
reported as false. -/
def delete_device (sys : SysState) (hw : HardwareConfig) (wo : WriteOutcome)
    (device_number : Nat) : SysState × Bool :=
  let lr := Repo.load sys.repo
  let sys0 : SysState := { sys with repo := lr.fst }
  let domain_config := lr.snd
  match lookup_device domain_config device_number with
  | none => (sys0, false)
  | some _ =>
      let cand := { domain_config with
        devices := domain_config.devices.filter (fun kv => ¬ (kv.fst = device_number)) }
      let pr := persist_candidate_config sys0 hw wo cand
      match pr.snd with
      | Except.error _ => (pr.fst, false)
      | Except.ok _ => (pr.fst, true)

/-- From GPIOService.set_manual_state: locates the device, forces its mode to
MANUAL and desired_state to the request in place, and when the measured state
already equals the request only syncs the config and returns the device with
no pin write and no event; otherwise writes the pin, syncs, and reports a
DEVICE_COMMAND backend event, a stream event and an immediate heartbeat. -/
def set_manual_state (sys : SysState) (wo : Nat → WriteOutcome) (device_number : Nat)
    (is_on : Bool) : SysState × List Action × Option RuntimeDevice :=
  match get_by_number sys.manager device_number with
  | none => (sys, [], none)
  | some _ =>
      let m0 := update_runtime_device sys.manager device_number DeviceMode.MANUAL (some is_on)
      let sys0 : SysState := { sys with manager := m0 }
      let current_state := read_is_on_by_number m0 device_number
      if current_state = is_on then
        let syn := sync_device_state_to_config sys0 (wo device_number) device_number
          (some DeviceMode.MANUAL)
        if syn.snd then
          let m2 := update_runtime_device syn.fst.manager device_number DeviceMode.MANUAL
            (some current_state)
          ({ syn.fst with manager := m2 }, [Action.syncConfig device_number],
            get_by_number m2 device_number)
        else
          (syn.fst, [Action.syncConfig device_number], none)
      else
        let sres := set_state_by_number m0 device_number is_on
        if sres.snd then
          let sys1 : SysState := { sys0 with manager := sres.fst }
          let syn := sync_device_state_to_config sys1 (wo device_number) device_number
            (some DeviceMode.MANUAL)
          if syn.snd then
            let actual := read_is_on_by_number syn.fst.manager device_number
            let m2 := update_runtime_device syn.fst.manager device_number DeviceMode.MANUAL
              (some actual)
            ({ syn.fst with manager := m2 },
              [Action.syncConfig device_number,
               Action.backendEvent device_number "STATE" (some actual) "DEVICE_COMMAND",
               Action.streamEvent device_number "STATE" "DEVICE_COMMAND",
               Action.heartbeatNow],
              get_by_number m2 device_number)
          else
            (syn.fst, [Action.syncConfig device_number], none)
        else
          (sys0, [], none)

/-- One iteration of the heartbeat periodic loop's failure handling, from
HeartbeatService._loop: a successful publish clears the safety flag; a failed
publish triggers the safety shutdown only when the flag is clear, then sets
it. Returns the new flag and whether force_all_off was called. -/
def heartbeat_step (safety_shutdown_triggered : Bool) (publish_ok : Bool) : Bool × Bool :=
  if publish_ok then (false, false)
  else if safety_shutdown_triggered then (true, false)
  else (true, true)

/-- The heartbeat loop run over a list of publish outcomes (true means the
publish succeeded), from HeartbeatService._loop, threading the runtime device
manager state and recording per-iteration whether force_all_off ran. -/
def heartbeat_loop (m : ManagerState) (flag : Bool) :
    List Bool → ManagerState × List Bool
  | [] => (m, [])
  | ok :: rest =>
      let fp := heartbeat_step flag ok
      let m1 := if fp.snd then force_all_off m "HEARTBEAT_FAILURE" else m
      let r := heartbeat_loop m1 fp.fst rest
      (r.fst, fp.snd :: r.snd)

/-- Python str.strip: removes leading and trailing whitespace, written over
the character list so that concrete instances evaluate. -/
def py_strip (s : String) : String :=
  String.mk (((s.data.dropWhile Char.isWhitespace).reverse.dropWhile
    Char.isWhitespace).reverse)

/-- From NatsSubjects.provider_event (app/core/nats_subjects.py): the
prefix-scoped subject of a provider's current-energy events. -/
def provider_event_subject (prefix_str : String) (provider_uuid : String) : String :=
  prefix_str ++ "." ++ provider_uuid ++ "." ++ "event" ++ "." ++ "provider_current_energy"

/-- State of the ProviderSubscriptionService
(app/core/provider_subscription_service.py): the active subscription handle
is represented by the subject it is bound to, together with the current
provider uuid and whether the message handler has been initialized. -/
structure ProviderSubscriptionState where
  provider_subscription : Option String
  provider_uuid : Option String
  handler_set : Bool
deriving DecidableEq, Repr

/-- Failure modes of switch_provider_uuid: the ValueError on an empty uuid,
the RuntimeError on a missing handler, and the re-raised subscribe failure. -/
inductive SwitchErr where
  | emptyUuid
  | noHandler
  | subscribeFailed
deriving DecidableEq, Repr

/-- Successful switch result, from ProviderSubscriptionSwitchResult. -/
structure SwitchResult where
  previous_provider_uuid : Option String
  provider_uuid : String
  changed : Bool
deriving DecidableEq, Repr

/-- From ProviderSubscriptionService.switch_provider_uuid: normalizes the
uuid, no-ops when already subscribed to it, otherwise unsubscribes the old
handle (failures ignored), clears the held state and subscribes to the new
subject; on a subscribe failure it attempts to re-subscribe to the previous
subject with the same handler and re-raises either way. The bus subscribe
outcome is abstracted by the per-subject predicate sub_ok. -/
def switch_provider_uuid (prefix_str : String) (st : ProviderSubscriptionState)
    (sub_ok : String → Bool) (provider_uuid : String) :
    ProviderSubscriptionState × Except SwitchErr SwitchResult :=
  let normalized := py_strip provider_uuid
  if normalized = "" then (st, Except.error SwitchErr.emptyUuid)
  else if ¬ st.handler_set then (st, Except.error SwitchErr.noHandler)
  else
    let previous_uuid := st.provider_uuid
    if previous_uuid = some normalized ∧ st.provider_subscription.isSome then
      (st, Except.ok { previous_provider_uuid := previous_uuid,
                       provider_uuid := normalized, changed := false })
    else
      let st1 := { st with provider_subscription := none, provider_uuid := none }
      let new_subject := provider_event_subject prefix_str normalized
      if sub_ok new_subject then
        ({ st1 with provider_subscription := some new_subject,
                    provider_uuid := some normalized },
          Except.ok { previous_provider_uuid := previous_uuid,
                      provider_uuid := normalized, changed := true })
      else
        match previous_uuid with
        | some pu =>
            let previous_subject := provider_event_subject prefix_str pu
            if sub_ok previous_subject then
              ({ st1 with provider_subscription := some previous_subject,
                          provider_uuid := some pu },
                Except.error SwitchErr.subscribeFailed)
            else
              (st1, Except.error SwitchErr.subscribeFailed)
        | none => (st1, Except.error SwitchErr.subscribeFailed)

/-- Backend event payload as queued and posted by the BackendAdapter
(app/infrastructure/backend/backend_adapter.py); the identifier fields are
optional, and event_name or event_type being none or empty models a missing
or falsy JSON field. -/
structure BackendPayload where
  event_name : Option String := none
  event_type : Option String := none
  device_uuid : Option String := none
  device_id : Option Int := none
  device_number : Option Nat := none
  is_on : Option Bool := none
  trigger_reason : Option String := none
deriving DecidableEq, Repr

/-- One line of the on-disk offline queue file: whitespace-only, invalid
JSON, or a parsed JSON object payload. -/
inductive QueueLine where
  | blank
  | malformed (raw : String)
  | jsonPayload (p : BackendPayload)
deriving DecidableEq, Repr

/-- Python truthiness of an optional string field. -/
def truthy : Option String → Bool
  | none => false
  | some s => ¬ s.isEmpty

/-- From BackendAdapter._looks_like_valid_event_payload: a queued payload is
valid when event_name and event_type are both present and truthy. -/
def looks_like_valid_event_payload (p : BackendPayload) : Bool :=
  truthy p.event_name && truthy p.event_type

/-- Outcome of posting one payload to the backend, abstracting
BackendAdapter._post_payload plus raise_for_status: success, the
MissingDeviceUUIDError raised before sending, an HTTP status error, a
transport-level request error, or any other exception. -/
inductive SendResult where
  | ok
  | missingUuid
  | httpError
  | requestError
  | otherError
deriving DecidableEq, Repr

/-- Result of one offline-queue flush: the payloads delivered (in order), the
lines moved to the quarantine file (in order), and the lines kept in the
retry queue (in order). -/
structure FlushResult where
  delivered : List BackendPayload
  quarantined : List QueueLine
  remaining : List QueueLine
deriving DecidableEq, Repr

/-- From BackendAdapter._flush_queue: queue lines are processed in file
order; blank lines are dropped, lines that are not valid JSON or that lack
event_name or event_type go to the quarantine file and leave the retry
queue, a delivered line is removed, and a line failing with any send error
is kept for the next flush. The send outcome per payload is abstracted by
the send parameter. -/
def flush_queue (send : BackendPayload → SendResult) :
    List QueueLine → FlushResult
  | [] => { delivered := [], quarantined := [], remaining := [] }
  | line :: rest =>
      let r := flush_queue send rest
      match line with
      | QueueLine.blank => r
      | QueueLine.malformed raw =>
          { r with quarantined := QueueLine.malformed raw :: r.quarantined }
      | QueueLine.jsonPayload p =>
          if looks_like_valid_event_payload p then
            match send p with
            | SendResult.ok => { r with delivered := p :: r.delivered }
            | _ => { r with remaining := QueueLine.jsonPayload p :: r.remaining }
          else
            { r with quarantined := QueueLine.jsonPayload p :: r.quarantined }

/-- The event_name chosen by BackendAdapter.log_device_event from the is_on
argument: DEVICE_ON, DEVICE_OFF or SNAPSHOT. -/
def event_name_for (is_on : Option Bool) : String :=
  match is_on with
  | some true => "DEVICE_ON"
  | some false => "DEVICE_OFF"
  | none => "SNAPSHOT"

/-- From BackendAdapter.log_device_event: a disabled adapter is a silent
no-op; otherwise the offline queue is flushed first, the freshly built
payload is posted afterwards, and on any send failure it is appended to the
retry queue. Returns the ordered list of successfully delivered payloads and
the new queue content. -/
def log_device_event (enabled : Bool) (queue : List QueueLine)
    (send : BackendPayload → SendResult) (payload : BackendPayload) :
    List BackendPayload × List QueueLine :=
  if ¬ enabled then ([], queue)
  else
    let fr := flush_queue send queue
    match send payload with
    | SendResult.ok => (fr.delivered ++ [payload], fr.remaining)
    | _ => (fr.delivered, fr.remaining ++ [QueueLine.jsonPayload payload])

/-- The device_number an action refers to, when it refers to one. -/
def action_device : Action → Option Nat
  | Action.backendEvent n _ _ _ => some n
  | Action.syncConfig n => some n
  | Action.streamEvent n _ _ => some n
  | Action.heartbeatNow => none

/-- Skeleton agreement between two optional table entries: both absent, or
both present with the same device_number, gpio pin and polarity. -/
def opt_skel : Option RuntimeDevice → Option RuntimeDevice → Prop
  | none, none => True
  | some a, some b =>
      b.device_number = a.device_number ∧ b.gpio = a.gpio ∧ b.active_low = a.active_low
  | _, _ => False

/-- The manager table agrees with a base table on lookup skeletons: every
device_number resolves to an entry with the same identity, pin and polarity
(the handlers only rewrite mode and desired_state, never these fields). -/
def preserves_table (base : List RuntimeDevice) (m : ManagerState) : Prop :=
  ∀ n, opt_skel (base.find? (fun d => d.device_number == n)) (get_by_number m n)

/-- A table rewrite that keeps device_number, gpio and polarity. -/
def preserves_fields (g : RuntimeDevice → RuntimeDevice) : Prop :=
  ∀ d, (g d).device_number = d.device_number ∧ (g d).gpio = d.gpio ∧
    (g d).active_low = d.active_low

/-- An empty runtime manager used to instantiate concrete scenarios. -/
def demo_manager : ManagerState :=
  { devices_by_number := [], pins := fun _ => GPIO.HIGH }

/-- C10: when the underlying hardware read raises, GPIOController.read_pin
returns the raw HIGH level instead of propagating the error; consequently the
derived logical state reports an active_low device as OFF and an active-high
device as ON. -/
theorem read_pin_failure_defaults_to_high :
    read_pin none = GPIO.HIGH ∧
    raw_to_is_on true (read_pin none) = false ∧
    raw_to_is_on false (read_pin none) = true := by
  refine ⟨rfl, ?_, ?_⟩ <;> decide

theorem raw_logical_round (al b : Bool) :
    raw_to_is_on al (logical_to_raw al b) = b := by
  cases al <;> cases b <;> rfl

theorem find?_map_pred {α : Type} (g : α → α) (p : α → Bool)
    (h : ∀ a, p (g a) = p a) :
    ∀ l : List α, (l.map g).find? p = (l.find? p).map g := by
  intro l
  induction l with
  | nil => rfl
  | cons a t ih =>
      cases hpa : p a with
      | true =>
          rw [List.map_cons, List.find?_cons_of_pos _ (by rw [h a]; exact hpa),
            List.find?_cons_of_pos _ hpa, Option.map_some']
      | false =>
          rw [List.map_cons, List.find?_cons_of_neg _ (by rw [h a]; simp [hpa]),
            List.find?_cons_of_neg _ (by simp [hpa]), ih]

theorem preserves_fields_set_desired (n : Nat) (b : Bool) :
    preserves_fields (set_desired_fn n b) := by
  intro d
  unfold set_desired_fn
  split <;> simp

theorem preserves_fields_set_mode_desired (n : Nat) (mo : DeviceMode) (de : Option Bool) :
    preserves_fields (set_mode_desired_fn n mo de) := by
  intro d
  unfold set_mode_desired_fn
  split <;> simp

theorem get_by_number_map (m : ManagerState) (g : RuntimeDevice → RuntimeDevice)
    (hg : preserves_fields g) (pins' : Nat → Nat) (n : Nat) :
    get_by_number { devices_by_number := m.devices_by_number.map g, pins := pins' } n
      = (get_by_number m n).map g := by
  unfold get_by_number
  exact find?_map_pred g _ (fun d => by rw [(hg d).1]) _

theorem preserves_table_refl (m : ManagerState) :
    preserves_table m.devices_by_number m := by
  intro n
  unfold get_by_number
  cases h : m.devices_by_number.find? (fun d => d.device_number == n) <;>
    simp [opt_skel]

theorem preserves_table_map (base : List RuntimeDevice) (m : ManagerState)
    (h : preserves_table base m) (g : RuntimeDevice → RuntimeDevice)
    (hg : preserves_fields g) (pins' : Nat → Nat) :
    preserves_table base { devices_by_number := m.devices_by_number.map g, pins := pins' } := by
  intro n
  rw [get_by_number_map m g hg pins' n]
  have h' := h n
  cases hb : base.find? (fun d => d.device_number == n) <;>
    cases hm : get_by_number m n <;> rw [hb, hm] at h'
  · simp [opt_skel]
  · exact absurd h' (by simp [opt_skel])
  · exact absurd h' (by simp [opt_skel])
  · rename_i a b
    obtain ⟨h1, h2, h3⟩ := h'
    simp only [Option.map_some', opt_skel]
    exact ⟨(hg b).1.trans h1, (hg b).2.1.trans h2, (hg b).2.2.trans h3⟩

theorem update_runtime_preserves (base : List RuntimeDevice) (m : ManagerState)
    (h : preserves_table base m) (n : Nat) (mo : DeviceMode) (de : Option Bool) :
    preserves_table base (update_runtime_device m n mo de) := by
  unfold update_runtime_device
  exact preserves_table_map base m h _ (preserves_fields_set_mode_desired n mo de) _

theorem update_runtime_pins (m : ManagerState) (n : Nat) (mo : DeviceMode)
    (de : Option Bool) : (update_runtime_device m n mo de).pins = m.pins := rfl

theorem sync_manager_pins (sys : SysState) (wo : WriteOutcome) (n : Nat)
    (mo : Option DeviceMode) :
    (sync_device_state_to_config sys wo n mo).fst.manager.pins = sys.manager.pins := by
  unfold sync_device_state_to_config
  dsimp only
  cases h : lookup_device (Repo.load sys.repo).snd n
  · rfl
  · dsimp only
    split <;> split <;> rfl

theorem sync_preserves_table (base : List RuntimeDevice) (sys : SysState)
    (wo : WriteOutcome) (n : Nat) (mo : Option DeviceMode)
    (h : preserves_table base sys.manager) :
    preserves_table base (sync_device_state_to_config sys wo n mo).fst.manager := by
  unfold sync_device_state_to_config
  dsimp only
  cases hl : lookup_device (Repo.load sys.repo).snd n
  · exact h
  · dsimp only
    split <;> split
    · exact update_runtime_preserves base sys.manager h _ _ _
    · exact h
    · exact update_runtime_preserves base sys.manager h _ _ _
    · exact h

theorem find?_eq_of_nodup {l : List RuntimeDevice}
    (hn : (l.map (fun d => d.device_number)).Nodup) {d : RuntimeDevice} (hd : d ∈ l) :
    l.find? (fun e => e.device_number == d.device_number) = some d := by
  induction l with
  | nil => cases hd
  | cons a t ih =>
      rw [List.map_cons, List.nodup_cons] at hn
      rcases List.mem_cons.mp hd with rfl | hdt
      · exact List.find?_cons_of_pos _ (by simp)
      · have hna : a.device_number ≠ d.device_number := by
          intro hEq
          exact hn.1 (hEq ▸ List.mem_map_of_mem (fun e => e.device_number) hdt)
        rw [List.find?_cons_of_neg _ (by simp [hna])]
        exact ih hn.2 hdt

theorem read_of_preserves {base : List RuntimeDevice} {m : ManagerState} {n : Nat}
    {e : RuntimeDevice} (h : preserves_table base m)
    (he : base.find? (fun d => d.device_number == n) = some e) :
    read_is_on_by_number m n = raw_to_is_on e.active_low (m.pins e.gpio) := by
  have h' := h n
  rw [he] at h'
  unfold read_is_on_by_number
  cases hm : get_by_number m n <;> rw [hm] at h'
  · exact absurd h' (by simp [opt_skel])
  · obtain ⟨_, h2, h3⟩ := h'
    dsimp only
    rw [h2, h3]

theorem set_state_of_found {m : ManagerState} {n : Nat} {e : RuntimeDevice}
    (he : get_by_number m n = some e) (b : Bool) :
    set_state_by_number m n b =
      ({ devices_by_number := m.devices_by_number.map (set_desired_fn n b),
         pins := fun p => if p = e.gpio then logical_to_raw e.active_low b else m.pins p },
       true) := by
  unfold set_state_by_number
  rw [he]

theorem get_of_preserves {base : List RuntimeDevice} {m : ManagerState} {n : Nat}
    {e : RuntimeDevice} (h : preserves_table base m)
    (he : base.find? (fun d => d.device_number == n) = some e) :
    ∃ b, get_by_number m n = some b ∧ b.device_number = e.device_number ∧
      b.gpio = e.gpio ∧ b.active_low = e.active_low := by
  have h' := h n
  rw [he] at h'
  cases hm : get_by_number m n <;> rw [hm] at h'
  · exact absurd h' (by simp [opt_skel])
  · exact ⟨_, rfl, h'⟩

theorem heartbeat_step_fst (flag ok : Bool) : (heartbeat_step flag ok).fst = !ok := by
  cases flag <;> cases ok <;> rfl

theorem heartbeat_step_snd (flag ok : Bool) :
    (heartbeat_step flag ok).snd = (!ok && !flag) := by
  cases flag <;> cases ok <;> rfl

theorem heartbeat_loop_get (outs : List Bool) :
    ∀ (m : ManagerState) (flag : Bool) (i : Nat), i < outs.length →
      (heartbeat_loop m flag outs).snd.getD i false =
        (!(outs.getD i true) && (if i = 0 then !flag else outs.getD (i - 1) true)) := by
  induction outs with
  | nil =>
      intro m flag i hi
      simp at hi
  | cons ok rest ih =>
      intro m flag i hi
      cases i with
      | zero =>
          simp only [heartbeat_loop, List.getD_cons_zero, heartbeat_step_snd]
          simp
      | succ j =>
          have hj : j < rest.length := by simpa using hi
          simp only [heartbeat_loop, List.getD_cons_succ]
          rw [ih _ _ j hj, heartbeat_step_fst]
          cases j with
          | zero => simp
          | succ k => simp

/-- C2: the heartbeat loop calls force_all_off with reason HEARTBEAT_FAILURE
exactly once per failure streak: a failed publish triggers it only when it is
the first publish or the previous publish succeeded, never again inside the
same streak, and a success resets the flag so a later failure triggers it
again. Outcomes list the successive publish results; the boolean at index i
of the loop's record says whether force_all_off ran on iteration i. -/
theorem heartbeat_failure_forces_once_per_streak (m : ManagerState)
    (outcomes : List Bool) (i : Nat) (hi : i < outcomes.length) :
    (heartbeat_loop m false outcomes).snd.getD i false =
      (!(outcomes.getD i true) &&
        (if i = 0 then true else outcomes.getD (i - 1) true)) := by
  rw [heartbeat_loop_get outcomes m false i hi]
  simp

/-- Witness for C2 at the outcome sequence fail, fail, success, fail: the
first failure forces the shutdown, the second consecutive failure does not,
and the failure after the success forces it again. -/
theorem heartbeat_failure_forces_once_per_streak_witness :
    ((0 : Nat) < 4 ∧
      (heartbeat_loop demo_manager false [false, false, true, false]).snd.getD 0 false = true) ∧
    ((1 : Nat) < 4 ∧
      (heartbeat_loop demo_manager false [false, false, true, false]).snd.getD 1 false = false) ∧
    ((3 : Nat) < 4 ∧
      (heartbeat_loop demo_manager false [false, false, true, false]).snd.getD 3 false = true) := by
  refine ⟨⟨by decide, ?_⟩, ⟨by decide, ?_⟩, ⟨by decide, ?_⟩⟩
  · exact (heartbeat_failure_forces_once_per_streak demo_manager
      [false, false, true, false] 0 (by decide)).trans (by decide)
  · exact (heartbeat_failure_forces_once_per_streak demo_manager
      [false, false, true, false] 1 (by decide)).trans (by decide)
  · exact (heartbeat_failure_forces_once_per_streak demo_manager
      [false, false, true, false] 3 (by decide)).trans (by decide)

theorem apply_initial_state_eq (pins : Nat → Nat) (d : RuntimeDevice) (p : Nat) :
    apply_initial_state pins d p =
      if p = d.gpio then logical_to_raw d.active_low (initial_target d) else pins p := by
  unfold apply_initial_state initial_target
  cases hm : d.mode <;> cases hd : d.desired_state <;> dsimp only <;> split <;> simp_all

theorem load_foldl_untouched (ds : List RuntimeDevice) :
    ∀ (pins : Nat → Nat) (p : Nat), (∀ d ∈ ds, d.gpio ≠ p) →
      ds.foldl apply_initial_state pins p = pins p := by
  induction ds with
  | nil => intro pins p _; rfl
  | cons d t ih =>
      intro pins p hp
      rw [List.foldl_cons, ih _ p (fun e he => hp e (List.mem_cons_of_mem _ he)),
        apply_initial_state_eq,
        if_neg (fun hEq => hp d (List.mem_cons_self _ _) hEq.symm)]

theorem load_foldl_mem (ds : List RuntimeDevice) :
    ∀ (pins : Nat → Nat), (ds.map (fun d => d.gpio)).Nodup →
      ∀ d ∈ ds, ds.foldl apply_initial_state pins d.gpio
        = logical_to_raw d.active_low (initial_target d) := by
  induction ds with
  | nil => intro _ _ d hd; cases hd
  | cons a t ih =>
      intro pins hn d hd
      rw [List.map_cons, List.nodup_cons] at hn
      rw [List.foldl_cons]
      rcases List.mem_cons.mp hd with rfl | hdt
      · rw [load_foldl_untouched t _ d.gpio
          (fun e he hEq => hn.1 (hEq ▸ List.mem_map_of_mem _ he)),
          apply_initial_state_eq, if_pos rfl]
      · exact ih _ hn.2 d hdt

/-- C3: load_devices rejects a list with a duplicate device_number;
otherwise it replaces the device table wholesale and leaves every device's
pin initialized to the safe OFF raw level, overridden by the persisted
desired_state written afterwards exactly when the device is MANUAL with a
non-null desired_state (initial_target packages that write order). -/
theorem load_devices_spec_behavior (m : ManagerState) (ds : List RuntimeDevice)
    (hnum : (ds.map (fun d => d.device_number)).Nodup)
    (hgpio : (ds.map (fun d => d.gpio)).Nodup) :
    (∃ m', load_devices m ds = Except.ok m' ∧ m'.devices_by_number = ds ∧
      ∀ d ∈ ds, m'.pins d.gpio = logical_to_raw d.active_low (initial_target d)) ∧
    (∀ ds' : List RuntimeDevice, ¬ (ds'.map (fun d => d.device_number)).Nodup →
      load_devices m ds' = Except.error "duplicate device_number") := by
  constructor
  · refine ⟨{ devices_by_number := ds, pins := ds.foldl apply_initial_state m.pins },
      ?_, rfl, ?_⟩
    · unfold load_devices
      rw [if_pos hnum]
    · intro d hd
      exact load_foldl_mem ds m.pins hgpio d hd
  · intro ds' h
    unfold load_devices
    rw [if_neg h]

/-- Two-device table used to instantiate the load_devices claim: a MANUAL
device with a persisted ON desired_state and an AUTO device. -/
def demo_load_list : List RuntimeDevice :=
  [{ device_id := 1, device_uuid := "u-1", device_number := 1, gpio := 17,
     active_low := true, mode := DeviceMode.MANUAL, desired_state := some true },
   { device_id := 2, device_uuid := "u-2", device_number := 2, gpio := 27,
     active_low := true, mode := DeviceMode.AUTO, threshold_value := some 2 }]

/-- Witness for C3 on a concrete two-device list with distinct numbers and
pins. -/
theorem load_devices_spec_behavior_witness :
    ((demo_load_list.map (fun d => d.device_number)).Nodup ∧
      (demo_load_list.map (fun d => d.gpio)).Nodup) ∧
    ((∃ m', load_devices demo_manager demo_load_list = Except.ok m' ∧
        m'.devices_by_number = demo_load_list ∧
        ∀ d ∈ demo_load_list, m'.pins d.gpio = logical_to_raw d.active_low (initial_target d)) ∧
      (∀ ds' : List RuntimeDevice, ¬ (ds'.map (fun d => d.device_number)).Nodup →
        load_devices demo_manager ds' = Except.error "duplicate device_number")) :=
  ⟨⟨by decide, by decide⟩,
    load_devices_spec_behavior demo_manager demo_load_list (by decide) (by decide)⟩

/-- C7: a provider switch from uuid a to uuid b whose subscribe to b's
subject fails attempts to re-subscribe to a's subject with the same handler;
when that rollback succeeds the service remains subscribed to provider a and
the switch surfaces the failure to the caller instead of reporting success. -/
theorem switch_provider_rollback_keeps_old (prefix_str : String)
    (st : ProviderSubscriptionState) (sub_ok : String → Bool) (a b : String)
    (hA : st.provider_uuid = some a)
    (hSub : st.provider_subscription.isSome)
    (hH : st.handler_set = true)
    (hB : ¬ py_strip b = "")
    (hAB : a ≠ py_strip b)
    (hfail : sub_ok (provider_event_subject prefix_str (py_strip b)) = false)
    (hroll : sub_ok (provider_event_subject prefix_str a) = true) :
    switch_provider_uuid prefix_str st sub_ok b =
      ({ provider_subscription := some (provider_event_subject prefix_str a),
         provider_uuid := some a, handler_set := st.handler_set },
       Except.error SwitchErr.subscribeFailed) := by
  unfold switch_provider_uuid
  dsimp only
  rw [if_neg hB, hA, hH]
  rw [if_neg (fun h : ¬ (true = true) => h rfl)]
  rw [if_neg (fun h => hAB (Option.some.inj h.1))]
  rw [if_neg (by rw [hfail]; exact Bool.false_ne_true)]
  dsimp only
  rw [if_pos hroll]

/-- Subscription state used to instantiate the provider rollback claim. -/
def demo_provider_state : ProviderSubscriptionState :=
  { provider_subscription := some (provider_event_subject "bus" "prov-a"),
    provider_uuid := some "prov-a", handler_set := true }

/-- Bus model used in the provider rollback witness: only provider a's
subject accepts a subscription. -/
def demo_sub_ok (subject : String) : Bool :=
  subject == provider_event_subject "bus" "prov-a"

/-- Witness for C7 on a concrete switch from prov-a to prov-b whose new
subscription fails and whose rollback succeeds. -/
theorem switch_provider_rollback_keeps_old_witness :
    (demo_provider_state.provider_uuid = some "prov-a" ∧
      demo_provider_state.provider_subscription.isSome ∧
      demo_provider_state.handler_set = true ∧
      ¬ py_strip "prov-b" = "" ∧
      "prov-a" ≠ py_strip "prov-b" ∧
      demo_sub_ok (provider_event_subject "bus" (py_strip "prov-b")) = false ∧
      demo_sub_ok (provider_event_subject "bus" "prov-a") = true) ∧
    switch_provider_uuid "bus" demo_provider_state demo_sub_ok "prov-b" =
      ({ provider_subscription := some (provider_event_subject "bus" "prov-a"),
         provider_uuid := some "prov-a", handler_set := demo_provider_state.handler_set },
       Except.error SwitchErr.subscribeFailed) :=
  ⟨⟨by decide, by decide, by decide, by decide, by decide, by decide, by decide⟩,
    switch_provider_rollback_keeps_old "bus" demo_provider_state demo_sub_ok
      "prov-a" "prov-b" (by decide) (by decide) (by decide) (by decide) (by decide)
      (by decide) (by decide)⟩

theorem flush_queue_delivered (send : BackendPayload → SendResult) :
    ∀ lines, (flush_queue send lines).delivered =
      lines.filterMap (fun l =>
        match l with
        | QueueLine.jsonPayload p =>
            if looks_like_valid_event_payload p ∧ send p = SendResult.ok then some p
            else none
        | _ => none) := by
  intro lines
  induction lines with
  | nil => rfl
  | cons line rest ih =>
      cases line with
      | blank => simpa [flush_queue, List.filterMap_cons] using ih
      | malformed raw => simpa [flush_queue, List.filterMap_cons] using ih
      | jsonPayload p =>
          by_cases hv : looks_like_valid_event_payload p = true
          · cases hs : send p <;> simp_all [flush_queue, List.filterMap_cons]
          · simp_all [flush_queue, List.filterMap_cons]

theorem flush_queue_quarantined (send : BackendPayload → SendResult) :
    ∀ lines, (flush_queue send lines).quarantined =
      lines.filter (fun l =>
        match l with
        | QueueLine.blank => false
        | QueueLine.malformed _ => true
        | QueueLine.jsonPayload p => !(looks_like_valid_event_payload p)) := by
  intro lines
  induction lines with
  | nil => rfl
  | cons line rest ih =>
      cases line with
      | blank => simpa [flush_queue, List.filter_cons] using ih
      | malformed raw => simpa [flush_queue, List.filter_cons] using ih
      | jsonPayload p =>
          by_cases hv : looks_like_valid_event_payload p = true
          · cases hs : send p <;> simp_all [flush_queue, List.filter_cons]
          · simp_all [flush_queue, List.filter_cons]

theorem flush_queue_remaining (send : BackendPayload → SendResult) :
    ∀ lines, (flush_queue send lines).remaining =
      lines.filter (fun l =>
        match l with
        | QueueLine.jsonPayload p =>
            looks_like_valid_event_payload p && decide (send p ≠ SendResult.ok)
        | _ => false) := by
  intro lines
  induction lines with
  | nil => rfl
  | cons line rest ih =>
      cases line with
      | blank => simpa [flush_queue, List.filter_cons] using ih
      | malformed raw => simpa [flush_queue, List.filter_cons] using ih
      | jsonPayload p =>
          by_cases hv : looks_like_valid_event_payload p = true
          · cases hs : send p <;> simp_all [flush_queue, List.filter_cons]
          · simp_all [flush_queue, List.filter_cons]

/-- C8: flushing processes queued lines oldest-first: the delivered payloads
are exactly the valid, successfully-sent lines in their original order; a
line that is not valid JSON or lacks event_name or event_type goes to the
quarantine file and is dropped from the retry queue; a line failing only
with a send error is kept; and log_device_event flushes the whole queue
before posting the new event, which therefore follows every flushed delivery. -/
theorem flush_queue_fifo_quarantine_retry (lines : List QueueLine)
    (send : BackendPayload → SendResult) (payload : BackendPayload)
    (hok : send payload = SendResult.ok) :
    ((flush_queue send lines).delivered =
      lines.filterMap (fun l =>
        match l with
        | QueueLine.jsonPayload p =>
            if looks_like_valid_event_payload p ∧ send p = SendResult.ok then some p
            else none
        | _ => none)) ∧
    ((flush_queue send lines).quarantined =
      lines.filter (fun l =>
        match l with
        | QueueLine.blank => false
        | QueueLine.malformed _ => true
        | QueueLine.jsonPayload p => !(looks_like_valid_event_payload p))) ∧
    ((flush_queue send lines).remaining =
      lines.filter (fun l =>
        match l with
        | QueueLine.jsonPayload p =>
            looks_like_valid_event_payload p && decide (send p ≠ SendResult.ok)
        | _ => false)) ∧
    (log_device_event true lines send payload =
      ((flush_queue send lines).delivered ++ [payload], (flush_queue send lines).remaining)) := by
  refine ⟨flush_queue_delivered send lines, flush_queue_quarantined send lines,
    flush_queue_remaining send lines, ?_⟩
  unfold log_device_event
  rw [hok]
  simp

/-- A well-formed backend payload carrying the given event name. -/
def demo_payload (name : String) : BackendPayload :=
  { event_name := some name, event_type := some "STATE", device_uuid := some "u-1" }

/-- Send model for the flush witness: the E3 payload hits a transient HTTP
error, everything else succeeds. -/
def demo_send (p : BackendPayload) : SendResult :=
  if p.event_name = some "E3" then SendResult.httpError else SendResult.ok

/-- Queue content for the flush witness: two deliverable events around a
malformed line and a field-less payload, then a transiently failing event. -/
def demo_queue : List QueueLine :=
  [QueueLine.jsonPayload (demo_payload "E1"),
   QueueLine.malformed "not json",
   QueueLine.jsonPayload (demo_payload "E2"),
   QueueLine.jsonPayload { event_name := some "X" },
   QueueLine.jsonPayload (demo_payload "E3")]

/-- Witness for C8 on the concrete queue: E1 and E2 are delivered in order,
the malformed and field-less lines are quarantined, E3 is kept for retry,
and the new event is posted after the flushed ones. -/
theorem flush_queue_fifo_quarantine_retry_witness :
    (demo_send (demo_payload "NEW") = SendResult.ok) ∧
    (((flush_queue demo_send demo_queue).delivered =
      demo_queue.filterMap (fun l =>
        match l with
        | QueueLine.jsonPayload p =>
            if looks_like_valid_event_payload p ∧ demo_send p = SendResult.ok then some p
            else none
        | _ => none)) ∧
    ((flush_queue demo_send demo_queue).quarantined =
      demo_queue.filter (fun l =>
        match l with
        | QueueLine.blank => false
        | QueueLine.malformed _ => true
        | QueueLine.jsonPayload p => !(looks_like_valid_event_payload p))) ∧
    ((flush_queue demo_send demo_queue).remaining =
      demo_queue.filter (fun l =>
        match l with
        | QueueLine.jsonPayload p =>
            looks_like_valid_event_payload p && decide (demo_send p ≠ SendResult.ok)
        | _ => false)) ∧
    (log_device_event true demo_queue demo_send (demo_payload "NEW") =
      ((flush_queue demo_send demo_queue).delivered ++ [demo_payload "NEW"],
        (flush_queue demo_send demo_queue).remaining))) :=
  ⟨by decide,
    flush_queue_fifo_quarantine_retry demo_queue demo_send (demo_payload "NEW") (by decide)⟩

theorem repo_load_disk (r : Repo) : (Repo.load r).fst.disk = r.disk := by
  rcases r with ⟨_ | c, d⟩
  · cases d <;> rfl
  · rfl

theorem repo_update_fail_snd {wo : WriteOutcome} (r : Repo) (cand : AgentConfig)
    (hwo : wo.ok = false) : (Repo.update r cand wo).snd = false := by
  cases wo
  · exact absurd hwo (by decide)
  · exact absurd hwo (by decide)
  · rfl
  · rfl

theorem repo_update_replace_fatal (r : Repo) (cand : AgentConfig) :
    Repo.update r cand WriteOutcome.replaceFatal =
      ({ cache := some cand, disk := r.disk }, false) := by
  unfold Repo.update
  dsimp only
  rw [repo_load_disk]

theorem repo_update_fallback_fail (r : Repo) (cand : AgentConfig) :
    Repo.update r cand WriteOutcome.fallbackFail =
      ({ cache := some cand, disk := DiskFile.truncated cand }, false) := rfl

theorem persist_fail {wo : WriteOutcome} (sys : SysState) (hw : HardwareConfig)
    (cand : AgentConfig) (hwo : wo.ok = false) :
    (persist_candidate_config sys hw wo cand).snd = Except.error () ∧
    (persist_candidate_config sys hw wo cand).fst.manager = sys.manager := by
  unfold persist_candidate_config
  cases hm : merge_configs cand hw <;> dsimp only
  · exact ⟨rfl, rfl⟩
  · rw [repo_update_fail_snd sys.repo cand hwo]
    simp

theorem persist_replace_fatal_disk (sys : SysState) (hw : HardwareConfig)
    (cand : AgentConfig) :
    (persist_candidate_config sys hw WriteOutcome.replaceFatal cand).fst.repo.disk
      = sys.repo.disk := by
  unfold persist_candidate_config
  cases hm : merge_configs cand hw <;>
    simp [repo_update_replace_fatal sys.repo cand]

/-- C9 (amended): for every lifecycle operation, when the config write fails
and is not recovered by the fallback write strategy, the operation reports
failure to the caller and the Runtime Device Manager is not reloaded (its
state is exactly the pre-operation state). When the failure is the atomic
replace raising a non-retryable error, the on-disk configuration is also
unchanged, since only the temp file was written; when the in-place fallback
write itself fails, the file was already opened for writing (truncated)
before the dump, so the disk is left a truncated partial of the candidate
rather than its previous content. In either case the in-memory cache
retains the failed candidate. -/
theorem lifecycle_persist_failure_aborts {wo : WriteOutcome} (sys : SysState)
    (hw : HardwareConfig) (pc : DeviceCreatedPayload) (pu : DeviceUpdatedPayload)
    (n : Nat) (hwo : wo.ok = false) :
    ((create_device sys hw wo pc).snd = false ∧
      (create_device sys hw wo pc).fst.manager = sys.manager) ∧
    ((update_device sys hw wo pu).snd = false ∧
      (update_device sys hw wo pu).fst.manager = sys.manager) ∧
    ((delete_device sys hw wo n).snd = false ∧
      (delete_device sys hw wo n).fst.manager = sys.manager) ∧
    (wo = WriteOutcome.replaceFatal →
      (create_device sys hw wo pc).fst.repo.disk = sys.repo.disk ∧
      (update_device sys hw wo pu).fst.repo.disk = sys.repo.disk ∧
      (delete_device sys hw wo n).fst.repo.disk = sys.repo.disk) ∧
    (∀ (r : Repo) (cand : AgentConfig),
      (Repo.update r cand WriteOutcome.fallbackFail).fst.disk
        = DiskFile.truncated cand) := by
  have hcreate : (create_device sys hw wo pc).snd = false ∧
      (create_device sys hw wo pc).fst.manager = sys.manager ∧
      (wo = WriteOutcome.replaceFatal →
        (create_device sys hw wo pc).fst.repo.disk = sys.repo.disk) := by
    unfold create_device
    dsimp only
    split
    · exact ⟨rfl, rfl, fun _ => repo_load_disk _⟩
    · split
      · exact ⟨rfl, rfl, fun _ => repo_load_disk _⟩
      · split
        · exact ⟨rfl, rfl, fun _ => repo_load_disk _⟩
        · obtain ⟨h1, h2⟩ := persist_fail
            { sys with repo := (Repo.load sys.repo).fst } hw _ hwo
          rw [h1]
          refine ⟨rfl, h2, fun hf => ?_⟩
          subst hf
          exact (persist_replace_fatal_disk
            { sys with repo := (Repo.load sys.repo).fst } hw _).trans (repo_load_disk _)
  have hupdate : (update_device sys hw wo pu).snd = false ∧
      (update_device sys hw wo pu).fst.manager = sys.manager ∧
      (wo = WriteOutcome.replaceFatal →
        (update_device sys hw wo pu).fst.repo.disk = sys.repo.disk) := by
    unfold update_device
    dsimp only
    cases hl : lookup_device (Repo.load sys.repo).snd pu.device_number
    · exact ⟨rfl, rfl, fun _ => repo_load_disk _⟩
    · dsimp only
      obtain ⟨h1, h2⟩ := persist_fail
        { sys with repo := (Repo.load sys.repo).fst } hw _ hwo
      rw [h1]
      refine ⟨rfl, h2, fun hf => ?_⟩
      subst hf
      exact (persist_replace_fatal_disk
        { sys with repo := (Repo.load sys.repo).fst } hw _).trans (repo_load_disk _)
  have hdelete : (delete_device sys hw wo n).snd = false ∧
      (delete_device sys hw wo n).fst.manager = sys.manager ∧
      (wo = WriteOutcome.replaceFatal →
        (delete_device sys hw wo n).fst.repo.disk = sys.repo.disk) := by
    unfold delete_device
    dsimp only
    cases hl : lookup_device (Repo.load sys.repo).snd n
    · exact ⟨rfl, rfl, fun _ => repo_load_disk _⟩
    · dsimp only
      obtain ⟨h1, h2⟩ := persist_fail
        { sys with repo := (Repo.load sys.repo).fst } hw _ hwo
      rw [h1]
      refine ⟨rfl, h2, fun hf => ?_⟩
      subst hf
      exact (persist_replace_fatal_disk
        { sys with repo := (Repo.load sys.repo).fst } hw _).trans (repo_load_disk _)
  refine ⟨⟨hcreate.1, hcreate.2.1⟩, ⟨hupdate.1, hupdate.2.1⟩,
    ⟨hdelete.1, hdelete.2.1⟩, ?_, ?_⟩
  · intro hf
    exact ⟨hcreate.2.2 hf, hupdate.2.2 hf, hdelete.2.2 hf⟩
  · intro r cand
    rw [repo_update_fallback_fail]

/-- Domain config used in the persistence-failure scenario: room for one
device, none configured. -/
def cfg_c9 : AgentConfig :=
  { config_version := 2, microcontroller_uuid := "mc-1", provider_uuid := "prov-1",
    heartbeat_interval := 60, device_max := 1, devices := [] }

/-- Hardware config used in the persistence-failure scenario. -/
def hw_c9 : HardwareConfig :=
  { config_version := 1, default_active_low := false,
    devices := [(1, { gpio := 17, active_low := some true })] }

/-- Initial system state for the persistence-failure scenario. -/
def sys_c9 : SysState :=
  { manager := demo_manager, repo := { cache := none, disk := DiskFile.intact cfg_c9 } }

/-- Valid creation command for the persistence-failure scenario. -/
def payload_c9 : DeviceCreatedPayload :=
  { device_id := 7, device_uuid := "dev-7", device_number := 1,
    mode := DeviceMode.AUTO, is_on := false, threshold_value := some 1 }

/-- Update command used to instantiate the amended C9 theorem. -/
def upd_payload_c9 : DeviceUpdatedPayload :=
  { device_id := 7, device_uuid := "dev-7", device_number := 1,
    mode := DeviceMode.AUTO, threshold_value := some 2 }

/-- Counterexample to C9 as stated: after a create whose config write fails
(not recovered by the fallback), a subsequent load() returns the failed
candidate from the in-memory cache, not the pre-operation configuration, so
the recorded configuration state is not left as it was. -/
theorem persist_failure_changes_subsequent_load :
    (Repo.load (create_device sys_c9 hw_c9 WriteOutcome.replaceFatal payload_c9).fst.repo).snd ≠
      (Repo.load sys_c9.repo).snd ∧
    (create_device sys_c9 hw_c9 WriteOutcome.replaceFatal payload_c9).snd = false := by
  constructor <;> decide

/-- Witness for the amended C9 theorem at a non-retryable replace failure:
every conjunct is exercised, including the universal truncation fact for the
failing fallback write. -/
theorem lifecycle_persist_failure_aborts_witness :
    (WriteOutcome.replaceFatal.ok = false) ∧
    (((create_device sys_c9 hw_c9 WriteOutcome.replaceFatal payload_c9).snd = false ∧
      (create_device sys_c9 hw_c9 WriteOutcome.replaceFatal payload_c9).fst.manager
        = sys_c9.manager) ∧
    ((update_device sys_c9 hw_c9 WriteOutcome.replaceFatal upd_payload_c9).snd = false ∧
      (update_device sys_c9 hw_c9 WriteOutcome.replaceFatal upd_payload_c9).fst.manager
        = sys_c9.manager) ∧
    ((delete_device sys_c9 hw_c9 WriteOutcome.replaceFatal 1).snd = false ∧
      (delete_device sys_c9 hw_c9 WriteOutcome.replaceFatal 1).fst.manager
        = sys_c9.manager) ∧
    (WriteOutcome.replaceFatal = WriteOutcome.replaceFatal →
      (create_device sys_c9 hw_c9 WriteOutcome.replaceFatal payload_c9).fst.repo.disk
        = sys_c9.repo.disk ∧
      (update_device sys_c9 hw_c9 WriteOutcome.replaceFatal upd_payload_c9).fst.repo.disk
        = sys_c9.repo.disk ∧
      (delete_device sys_c9 hw_c9 WriteOutcome.replaceFatal 1).fst.repo.disk
        = sys_c9.repo.disk) ∧
    (∀ (r : Repo) (cand : AgentConfig),
      (Repo.update r cand WriteOutcome.fallbackFail).fst.disk
        = DiskFile.truncated cand)) :=
  ⟨by decide,
    lifecycle_persist_failure_aborts sys_c9 hw_c9 payload_c9 upd_payload_c9 1 (by decide)⟩

theorem read_of_get {m : ManagerState} {n : Nat} {b : RuntimeDevice}
    (hb : get_by_number m n = some b) :
    read_is_on_by_number m n = raw_to_is_on b.active_low (m.pins b.gpio) := by
  unfold read_is_on_by_number
  rw [hb]

theorem nodup_map_inj {α β : Type} {f : α → β} {l : List α}
    (hn : (l.map f).Nodup) {a b : α} (ha : a ∈ l) (hb : b ∈ l) (hf : f a = f b) :
    a = b := by
  induction l with
  | nil => cases ha
  | cons x t ih =>
      rw [List.map_cons, List.nodup_cons] at hn
      rcases List.mem_cons.mp ha with rfl | hat
      · rcases List.mem_cons.mp hb with rfl | hbt
        · rfl
        · exact absurd (hf ▸ List.mem_map_of_mem f hbt) hn.1
      · rcases List.mem_cons.mp hb with rfl | hbt
        · exact absurd (hf ▸ List.mem_map_of_mem f hat) hn.1
        · exact ih hn.2 hat hbt

theorem power_missing_step_props (wo : Nat → WriteOutcome) (sys : SysState)
    (tr : List Action) (d b : RuntimeDevice)
    (hb : get_by_number sys.manager d.device_number = some b) :
    ∃ sys' ext,
      power_missing_step wo (sys, tr) d = (sys', tr ++ ext) ∧
      sys'.manager.pins =
        (fun p => if p = b.gpio then logical_to_raw b.active_low false
         else sys.manager.pins p) ∧
      (∀ base, preserves_table base sys.manager → preserves_table base sys'.manager) ∧
      Action.syncConfig d.device_number ∈ ext ∧
      Action.backendEvent d.device_number "ERROR" (some false) "POWER_MISSING" ∈ ext ∧
      (∀ a ∈ ext, ∀ nn, action_device a = some nn → nn = d.device_number) := by
  unfold power_missing_step
  dsimp only
  rw [set_state_of_found hb]
  dsimp only
  rw [if_pos rfl]
  refine ⟨_, _, rfl, ?_, ?_, ?_, ?_, ?_⟩
  · exact sync_manager_pins _ _ _ _
  · intro base hp
    exact sync_preserves_table base _ _ _ _
      (preserves_table_map base sys.manager hp _ (preserves_fields_set_desired _ _) _)
  · simp
  · simp
  · intro a ha nn hnn
    cases hs : (sync_device_state_to_config
        { manager :=
            { devices_by_number :=
                sys.manager.devices_by_number.map (set_desired_fn d.device_number false),
              pins := fun p =>
                if p = b.gpio then logical_to_raw b.active_low false
                else sys.manager.pins p },
          repo := sys.repo } (wo d.device_number) d.device_number none).snd
    · rw [hs] at ha
      simp [sync_failed_event] at ha
      rcases ha with rfl | rfl | rfl | rfl | rfl <;> simp [action_device] at hnn <;> omega
    · rw [hs] at ha
      simp at ha
      rcases ha with rfl | rfl | rfl | rfl <;> simp [action_device] at hnn <;> omega

theorem power_missing_step_trace (wo : Nat → WriteOutcome) (sys : SysState)
    (tr : List Action) (e : RuntimeDevice) :
    ∃ sys1 delta, power_missing_step wo (sys, tr) e = (sys1, tr ++ delta) := by
  unfold power_missing_step
  dsimp only
  by_cases h : (set_state_by_number sys.manager e.device_number false).snd = true
  · rw [if_pos h]
    exact ⟨_, _, rfl⟩
  · rw [if_neg h]
    exact ⟨_, _, rfl⟩

theorem power_missing_fold_trace (wo : Nat → WriteOutcome) :
    ∀ (L : List RuntimeDevice) (sys : SysState) (tr : List Action),
      ∃ ext, (L.foldl (power_missing_step wo) (sys, tr)).snd = tr ++ ext := by
  intro L
  induction L with
  | nil =>
      intro sys tr
      exact ⟨[], (List.append_nil tr).symm⟩
  | cons e rest ih =>
      intro sys tr
      obtain ⟨sys1, delta, hstep⟩ := power_missing_step_trace wo sys tr e
      rw [List.foldl_cons, hstep]
      obtain ⟨ext, hext⟩ := ih sys1 (tr ++ delta)
      exact ⟨delta ++ ext, by rw [hext, List.append_assoc]⟩

theorem power_missing_fold (wo : Nat → WriteOutcome) (base : List RuntimeDevice)
    (hn : (base.map (fun d => d.device_number)).Nodup) :
    ∀ (L : List RuntimeDevice) (sys : SysState) (tr : List Action),
      (∀ e ∈ L, e ∈ base) →
      preserves_table base sys.manager →
      preserves_table base (L.foldl (power_missing_step wo) (sys, tr)).fst.manager ∧
      (∀ p, (∀ e ∈ L, e.gpio ≠ p) →
        (L.foldl (power_missing_step wo) (sys, tr)).fst.manager.pins p = sys.manager.pins p) ∧
      ((L.map (fun d => d.gpio)).Nodup →
        ∀ e ∈ L, (L.foldl (power_missing_step wo) (sys, tr)).fst.manager.pins e.gpio
          = logical_to_raw e.active_low false) ∧
      (∀ e ∈ L,
        Action.syncConfig e.device_number ∈ (L.foldl (power_missing_step wo) (sys, tr)).snd ∧
        Action.backendEvent e.device_number "ERROR" (some false) "POWER_MISSING"
          ∈ (L.foldl (power_missing_step wo) (sys, tr)).snd) := by
  intro L
  induction L with
  | nil =>
      intro sys tr _ hpres
      exact ⟨hpres, fun p _ => rfl, fun _ e he => absurd he (List.not_mem_nil e),
        fun e he => absurd he (List.not_mem_nil e)⟩
  | cons e rest ih =>
      intro sys tr hL hpres
      have he_base : e ∈ base := hL e (List.mem_cons_self e rest)
      have hfind : base.find? (fun x => x.device_number == e.device_number) = some e :=
        find?_eq_of_nodup hn he_base
      obtain ⟨b, hb, hbn, hbg, hba⟩ := get_of_preserves hpres hfind
      obtain ⟨sys', ext1, hstep, hpins1, hpres1, hsync1, hpm1, _⟩ :=
        power_missing_step_props wo sys tr e b hb
      rw [List.foldl_cons, hstep]
      obtain ⟨ihpres, ihuntouched, ihmem, ihtrace⟩ :=
        ih sys' (tr ++ ext1) (fun x hx => hL x (List.mem_cons_of_mem e hx)) (hpres1 base hpres)
      refine ⟨ihpres, ?_, ?_, ?_⟩
      · intro p hp
        rw [ihuntouched p (fun x hx => hp x (List.mem_cons_of_mem e hx))]
        simp only [hpins1]
        exact if_neg (fun hEq => hp e (List.mem_cons_self e rest) (hbg ▸ hEq).symm)
      · intro hg x hx
        rw [List.map_cons, List.nodup_cons] at hg
        rcases List.mem_cons.mp hx with rfl | hxt
        · rw [ihuntouched x.gpio
            (fun y hy hEq => hg.1 (hEq ▸ List.mem_map_of_mem (fun d => d.gpio) hy))]
          simp [hpins1, hbg, hba]
        · exact ihmem hg.2 x hxt
      · intro x hx
        rcases List.mem_cons.mp hx with rfl | hxt
        · obtain ⟨ext2, hext2⟩ := power_missing_fold_trace wo rest sys' (tr ++ ext1)
          rw [hext2]
          constructor
          · exact List.mem_append_left _ (List.mem_append_right _ hsync1)
          · exact List.mem_append_left _ (List.mem_append_right _ hpm1)
        · exact ihtrace x hxt

/-- C1: on a missing power reading, handle_power forces every AUTO device
OFF (afterwards no AUTO device reads ON), and for every AUTO device — in
particular each one actually changed — it invokes the config sync (the
persist path) and reports a backend event with trigger reason POWER_MISSING. -/
theorem handle_power_missing_forces_auto_off (sys : SysState) (wo : Nat → WriteOutcome)
    (hn : (sys.manager.devices_by_number.map (fun d => d.device_number)).Nodup)
    (hg : (sys.manager.devices_by_number.map (fun d => d.gpio)).Nodup) :
    (∀ d ∈ sys.manager.devices_by_number, is_auto_mode d.mode = true →
      read_is_on_by_number (handle_power sys wo none).fst.manager d.device_number = false) ∧
    (∀ d ∈ sys.manager.devices_by_number, is_auto_mode d.mode = true →
      Action.syncConfig d.device_number ∈ (handle_power sys wo none).snd ∧
      Action.backendEvent d.device_number "ERROR" (some false) "POWER_MISSING"
        ∈ (handle_power sys wo none).snd) := by
  unfold handle_power
  dsimp only
  by_cases hA :
      (sys.manager.devices_by_number.filter (fun d => is_auto_mode d.mode)).isEmpty = true
  · rw [if_pos hA]
    rw [List.isEmpty_iff] at hA
    constructor <;> intro d hd hauto <;>
      exact absurd (hA ▸ List.mem_filter.mpr ⟨hd, by simpa using hauto⟩) (List.not_mem_nil d)
  · rw [if_neg hA]
    obtain ⟨fpres, _, fmem, ftrace⟩ :=
      power_missing_fold wo sys.manager.devices_by_number hn
        (sys.manager.devices_by_number.filter (fun d => is_auto_mode d.mode)) sys []
        (fun e he => (List.mem_filter.mp he).1) (preserves_table_refl sys.manager)
    constructor
    · intro d hd hauto
      have hdA : d ∈ sys.manager.devices_by_number.filter (fun d => is_auto_mode d.mode) :=
        List.mem_filter.mpr ⟨hd, by simpa using hauto⟩
      rw [read_of_preserves fpres (find?_eq_of_nodup hn hd)]
      have hsub : List.Sublist
          ((sys.manager.devices_by_number.filter (fun d => is_auto_mode d.mode)).map
            (fun d => d.gpio)) (sys.manager.devices_by_number.map (fun d => d.gpio)) :=
        (List.filter_sublist _).map _
      rw [fmem (hg.sublist hsub) d hdA, raw_logical_round]
    · intro d hd hauto
      exact ftrace d (List.mem_filter.mpr ⟨hd, by simpa using hauto⟩)

/-- AUTO device used to instantiate the missing-power claim, initially ON. -/
def auto_dev_w : RuntimeDevice :=
  { device_id := 2, device_uuid := "w-2", device_number := 2, gpio := 27,
    active_low := true, mode := DeviceMode.AUTO, threshold_value := some 1 }

/-- System state for the missing-power witness: one AUTO device reading ON. -/
def sys_w1 : SysState :=
  { manager := { devices_by_number := [auto_dev_w], pins := fun _ => GPIO.LOW },
    repo := { cache := none, disk := DiskFile.intact cfg_c9 } }

/-- Witness for C1: the single AUTO device starts ON and the theorem applies. -/
theorem handle_power_missing_forces_auto_off_witness :
    ((sys_w1.manager.devices_by_number.map (fun d => d.device_number)).Nodup ∧
      (sys_w1.manager.devices_by_number.map (fun d => d.gpio)).Nodup ∧
      read_is_on_by_number sys_w1.manager 2 = true) ∧
    ((∀ d ∈ sys_w1.manager.devices_by_number, is_auto_mode d.mode = true →
      read_is_on_by_number
        (handle_power sys_w1 (fun _ => WriteOutcome.atomicOk) none).fst.manager
        d.device_number = false) ∧
    (∀ d ∈ sys_w1.manager.devices_by_number, is_auto_mode d.mode = true →
      Action.syncConfig d.device_number
        ∈ (handle_power sys_w1 (fun _ => WriteOutcome.atomicOk) none).snd ∧
      Action.backendEvent d.device_number "ERROR" (some false) "POWER_MISSING"
        ∈ (handle_power sys_w1 (fun _ => WriteOutcome.atomicOk) none).snd)) :=
  ⟨⟨by decide, by decide, by decide⟩,
    handle_power_missing_forces_auto_off sys_w1 (fun _ => WriteOutcome.atomicOk)
      (by decide) (by decide)⟩

theorem power_present_step_none (wo : Nat → WriteOutcome) (v : ℚ) (sys : SysState)
    (tr : List Action) (d : RuntimeDevice) (ht : d.threshold_value = none) :
    power_present_step wo v (sys, tr) d = (sys, tr) := by
  unfold power_present_step
  dsimp only
  rw [ht]

theorem power_present_step_props (wo : Nat → WriteOutcome) (v : ℚ) (sys : SysState)
    (tr : List Action) (d b : RuntimeDevice) (t : ℚ)
    (ht : d.threshold_value = some t)
    (hb : get_by_number sys.manager d.device_number = some b)
    (hbg : b.gpio = d.gpio) (hba : b.active_low = d.active_low) :
    ∃ sys' ext,
      power_present_step wo v (sys, tr) d = (sys', tr ++ ext) ∧
      raw_to_is_on d.active_low (sys'.manager.pins d.gpio) = decide (v ≥ t) ∧
      (∀ p, p ≠ d.gpio → sys'.manager.pins p = sys.manager.pins p) ∧
      (∀ base, preserves_table base sys.manager → preserves_table base sys'.manager) ∧
      (∀ a ∈ ext, ∀ nn, action_device a = some nn → nn = d.device_number) := by
  unfold power_present_step
  dsimp only
  rw [ht]
  dsimp only
  rw [read_of_get hb]
  by_cases hc : raw_to_is_on b.active_low (sys.manager.pins b.gpio) = decide (v ≥ t)
  · rw [if_pos hc]
    exact ⟨sys, [], by rw [List.append_nil], by rw [← hba, ← hbg]; exact hc,
      fun p _ => rfl, fun base hp => hp, fun a ha => absurd ha (List.not_mem_nil a)⟩
  · rw [if_neg hc, set_state_of_found hb]
    dsimp only
    rw [if_pos rfl]
    refine ⟨_, _, rfl, ?_, ?_, ?_, ?_⟩
    · rw [sync_manager_pins]
      simp [hbg, hba, raw_logical_round]
    · intro p hp
      rw [sync_manager_pins]
      simp [hbg, hp]
    · intro base hp
      exact sync_preserves_table base _ _ _ _
        (preserves_table_map base sys.manager hp _ (preserves_fields_set_desired _ _) _)
    · intro a ha nn hnn
      cases hs : (sync_device_state_to_config
          { manager :=
              { devices_by_number :=
                  sys.manager.devices_by_number.map
                    (set_desired_fn d.device_number (decide (v ≥ t))),
                pins := fun p =>
                  if p = b.gpio then logical_to_raw b.active_low (decide (v ≥ t))
                  else sys.manager.pins p },
            repo := sys.repo } (wo d.device_number) d.device_number none).snd
      · rw [hs] at ha
        simp [sync_failed_event] at ha
        rcases ha with rfl | rfl | rfl | rfl | rfl <;> simp [action_device] at hnn <;> omega
      · rw [hs] at ha
        simp at ha
        rcases ha with rfl | rfl | rfl | rfl <;> simp [action_device] at hnn <;> omega

theorem power_present_fold (wo : Nat → WriteOutcome) (v : ℚ) (base : List RuntimeDevice)
    (hn : (base.map (fun d => d.device_number)).Nodup) :
    ∀ (L : List RuntimeDevice) (sys : SysState) (tr : List Action),
      (∀ e ∈ L, e ∈ base) →
      preserves_table base sys.manager →
      preserves_table base (L.foldl (power_present_step wo v) (sys, tr)).fst.manager ∧
      (∀ p, (∀ e ∈ L, e.gpio = p → e.threshold_value = none) →
        (L.foldl (power_present_step wo v) (sys, tr)).fst.manager.pins p = sys.manager.pins p) ∧
      ((L.map (fun d => d.gpio)).Nodup →
        ∀ e ∈ L, ∀ t, e.threshold_value = some t →
          raw_to_is_on e.active_low
            ((L.foldl (power_present_step wo v) (sys, tr)).fst.manager.pins e.gpio)
            = decide (v ≥ t)) ∧
      (∀ a ∈ (L.foldl (power_present_step wo v) (sys, tr)).snd, a ∈ tr ∨
        (∀ nn, action_device a = some nn →
          ∃ e ∈ L, nn = e.device_number ∧ e.threshold_value.isSome = true)) := by
  intro L
  induction L with
  | nil =>
      intro sys tr _ hpres
      exact ⟨hpres, fun p _ => rfl,
        fun _ e he => absurd he (List.not_mem_nil e),
        fun a ha => Or.inl ha⟩
  | cons e rest ih =>
      intro sys tr hL hpres
      have he_base : e ∈ base := hL e (List.mem_cons_self e rest)
      cases ht : e.threshold_value with
      | none =>
          rw [List.foldl_cons, power_present_step_none wo v sys tr e ht]
          obtain ⟨ihpres, ihuntouched, ihmem, ihtrace⟩ :=
            ih sys tr (fun x hx => hL x (List.mem_cons_of_mem e hx)) hpres
          refine ⟨ihpres, ?_, ?_, ?_⟩
          · intro p hp
            exact ihuntouched p (fun x hx => hp x (List.mem_cons_of_mem e hx))
          · intro hg x hx t hxt
            rw [List.map_cons, List.nodup_cons] at hg
            rcases List.mem_cons.mp hx with rfl | hxt'
            · rw [ht] at hxt
              simp at hxt
            · exact ihmem hg.2 x hxt' t hxt
          · intro a ha
            rcases ihtrace a ha with h | h
            · exact Or.inl h
            · refine Or.inr (fun nn hnn => ?_)
              obtain ⟨x, hx, hxn, hxs⟩ := h nn hnn
              exact ⟨x, List.mem_cons_of_mem e hx, hxn, hxs⟩
      | some t0 =>
          have hfind : base.find? (fun x => x.device_number == e.device_number) = some e :=
            find?_eq_of_nodup hn he_base
          obtain ⟨b, hb, hbn, hbg, hba⟩ := get_of_preserves hpres hfind
          obtain ⟨sys', ext1, hstep, hkey, huntouch, hprespre, htrbound⟩ :=
            power_present_step_props wo v sys tr e b t0 ht hb hbg hba
          rw [List.foldl_cons, hstep]
          obtain ⟨ihpres, ihuntouched, ihmem, ihtrace⟩ :=
            ih sys' (tr ++ ext1) (fun x hx => hL x (List.mem_cons_of_mem e hx))
              (hprespre base hpres)
          have hegpio_ne : ∀ p, (e.gpio = p → e.threshold_value = none) → p ≠ e.gpio := by
            intro p hp hEq
            rw [hp hEq.symm] at ht
            cases ht
          refine ⟨ihpres, ?_, ?_, ?_⟩
          · intro p hp
            rw [ihuntouched p (fun x hx => hp x (List.mem_cons_of_mem e hx))]
            exact huntouch p (hegpio_ne p (hp e (List.mem_cons_self e rest)))
          · intro hg x hx t hxt
            rw [List.map_cons, List.nodup_cons] at hg
            rcases List.mem_cons.mp hx with rfl | hxt'
            · have : ∀ y ∈ rest, y.gpio = x.gpio → y.threshold_value = none := by
                intro y hy hEq
                exact absurd (hEq ▸ List.mem_map_of_mem (fun d => d.gpio) hy) hg.1
              rw [ihuntouched x.gpio this]
              rw [ht] at hxt
              obtain rfl : t0 = t := Option.some.inj hxt
              exact hkey
            · exact ihmem hg.2 x hxt' t hxt
          · intro a ha
            rcases ihtrace a ha with h | h
            · rcases List.mem_append.mp h with h' | h'
              · exact Or.inl h'
              · refine Or.inr (fun nn hnn => ?_)
                exact ⟨e, List.mem_cons_self e rest, htrbound a h' nn hnn, by rw [ht]; rfl⟩
            · refine Or.inr (fun nn hnn => ?_)
              obtain ⟨x, hx, hxn, hxs⟩ := h nn hnn
              exact ⟨x, List.mem_cons_of_mem e hx, hxn, hxs⟩

/-- C4: on a present reading, every AUTO device with a defined threshold
ends the handler reading exactly the inclusive comparison reading at or
above threshold; a reading equal to the threshold turns the device ON. -/
theorem auto_threshold_inclusive_boundary (sys : SysState) (wo : Nat → WriteOutcome)
    (v : ℚ)
    (hn : (sys.manager.devices_by_number.map (fun d => d.device_number)).Nodup)
    (hg : (sys.manager.devices_by_number.map (fun d => d.gpio)).Nodup) :
    ∀ d ∈ sys.manager.devices_by_number, is_auto_mode d.mode = true →
      ∀ t, d.threshold_value = some t →
        read_is_on_by_number (handle_power sys wo (some v)).fst.manager d.device_number
          = decide (v ≥ t) := by
  unfold handle_power
  dsimp only
  by_cases hA :
      (sys.manager.devices_by_number.filter (fun d => is_auto_mode d.mode)).isEmpty = true
  · rw [if_pos hA]
    rw [List.isEmpty_iff] at hA
    intro d hd hauto t ht
    exact absurd (hA ▸ List.mem_filter.mpr ⟨hd, by simpa using hauto⟩) (List.not_mem_nil d)
  · rw [if_neg hA]
    obtain ⟨fpres, _, fmem, _⟩ :=
      power_present_fold wo v sys.manager.devices_by_number hn
        (sys.manager.devices_by_number.filter (fun d => is_auto_mode d.mode)) sys []
        (fun e he => (List.mem_filter.mp he).1) (preserves_table_refl sys.manager)
    intro d hd hauto t ht
    have hdA : d ∈ sys.manager.devices_by_number.filter (fun d => is_auto_mode d.mode) :=
      List.mem_filter.mpr ⟨hd, by simpa using hauto⟩
    rw [read_of_preserves fpres (find?_eq_of_nodup hn hd)]
    have hsub : List.Sublist
        ((sys.manager.devices_by_number.filter (fun d => is_auto_mode d.mode)).map
          (fun d => d.gpio)) (sys.manager.devices_by_number.map (fun d => d.gpio)) :=
      (List.filter_sublist _).map _
    exact fmem (hg.sublist hsub) d hdA t ht

/-- The threshold value 5/2 (2.5) used at the boundary. -/
def q_half5 : ℚ := ⟨5, 2, by decide, by decide⟩

/-- The reading 24999/10000 (2.4999), just below the threshold. -/
def q_below : ℚ := ⟨24999, 10000, by decide, by decide⟩

/-- AUTO device with threshold 2.5 for the boundary witness. -/
def dev_w4 : RuntimeDevice :=
  { device_id := 3, device_uuid := "w-3", device_number := 3, gpio := 22,
    active_low := false, mode := DeviceMode.AUTO, threshold_value := some q_half5 }

/-- System state for the boundary witness: the single AUTO device starts OFF. -/
def sys_w4 : SysState :=
  { manager := { devices_by_number := [dev_w4], pins := fun _ => GPIO.LOW },
    repo := { cache := none, disk := DiskFile.intact cfg_c9 } }

/-- Witness for C4: reading exactly 2.5 turns the threshold-2.5 device ON,
reading 2.4999 leaves it OFF. -/
theorem auto_threshold_inclusive_boundary_witness :
    ((sys_w4.manager.devices_by_number.map (fun d => d.device_number)).Nodup ∧
      (sys_w4.manager.devices_by_number.map (fun d => d.gpio)).Nodup ∧
      dev_w4 ∈ sys_w4.manager.devices_by_number ∧
      is_auto_mode dev_w4.mode = true ∧
      dev_w4.threshold_value = some q_half5) ∧
    read_is_on_by_number
      (handle_power sys_w4 (fun _ => WriteOutcome.atomicOk) (some q_half5)).fst.manager
      3 = true ∧
    read_is_on_by_number
      (handle_power sys_w4 (fun _ => WriteOutcome.atomicOk) (some q_below)).fst.manager
      3 = false :=
  ⟨⟨by decide, by decide, by decide, by decide, by decide⟩,
    (auto_threshold_inclusive_boundary sys_w4 (fun _ => WriteOutcome.atomicOk) q_half5
      (by decide) (by decide) dev_w4 (by decide) (by decide) q_half5 (by decide)).trans
      (by decide),
    (auto_threshold_inclusive_boundary sys_w4 (fun _ => WriteOutcome.atomicOk) q_below
      (by decide) (by decide) dev_w4 (by decide) (by decide) q_half5 (by decide)).trans
      (by decide)⟩

/-- C5: on every present reading, an AUTO device whose threshold_value is
null is skipped: its measured state and pin are unchanged and no trace
action (backend event, config sync/persist, stream event) refers to its
device_number; no default threshold is substituted. -/
theorem auto_missing_threshold_skipped (sys : SysState) (wo : Nat → WriteOutcome)
    (v : ℚ)
    (hn : (sys.manager.devices_by_number.map (fun d => d.device_number)).Nodup)
    (hg : (sys.manager.devices_by_number.map (fun d => d.gpio)).Nodup) :
    ∀ d ∈ sys.manager.devices_by_number, is_auto_mode d.mode = true →
      d.threshold_value = none →
      read_is_on_by_number (handle_power sys wo (some v)).fst.manager d.device_number
        = read_is_on_by_number sys.manager d.device_number ∧
      (handle_power sys wo (some v)).fst.manager.pins d.gpio = sys.manager.pins d.gpio ∧
      (∀ a ∈ (handle_power sys wo (some v)).snd, ∀ nn, action_device a = some nn →
        nn ≠ d.device_number) := by
  unfold handle_power
  dsimp only
  by_cases hA :
      (sys.manager.devices_by_number.filter (fun d => is_auto_mode d.mode)).isEmpty = true
  · rw [if_pos hA]
    intro d _ _ _
    exact ⟨rfl, rfl, fun a ha => absurd ha (List.not_mem_nil a)⟩
  · rw [if_neg hA]
    obtain ⟨fpres, funtouched, _, ftrace⟩ :=
      power_present_fold wo v sys.manager.devices_by_number hn
        (sys.manager.devices_by_number.filter (fun d => is_auto_mode d.mode)) sys []
        (fun e he => (List.mem_filter.mp he).1) (preserves_table_refl sys.manager)
    intro d hd hauto ht
    have hpin :
        ((sys.manager.devices_by_number.filter (fun d => is_auto_mode d.mode)).foldl
          (power_present_step wo v) (sys, [])).fst.manager.pins d.gpio
          = sys.manager.pins d.gpio := by
      refine funtouched d.gpio (fun e he hEq => ?_)
      have : e = d := nodup_map_inj hg (List.mem_filter.mp he).1 hd hEq
      rw [this, ht]
    refine ⟨?_, hpin, ?_⟩
    · rw [read_of_preserves fpres (find?_eq_of_nodup hn hd), hpin,
        read_of_preserves (preserves_table_refl sys.manager) (find?_eq_of_nodup hn hd)]
    · intro a ha nn hnn hne
      rcases ftrace a ha with h | h
      · exact absurd h (List.not_mem_nil a)
      · obtain ⟨e, heA, hen, hes⟩ := h nn hnn
        have : e = d :=
          nodup_map_inj hn (List.mem_filter.mp heA).1 hd (hen ▸ hne ▸ rfl)
        rw [this, ht] at hes
        cases hes

/-- AUTO device with no configured threshold, initially ON. -/
def dev_w5 : RuntimeDevice :=
  { device_id := 4, device_uuid := "w-4", device_number := 4, gpio := 23,
    active_low := true, mode := DeviceMode.AUTO, threshold_value := none }

/-- System state for the missing-threshold witness. -/
def sys_w5 : SysState :=
  { manager := { devices_by_number := [dev_w5], pins := fun _ => GPIO.LOW },
    repo := { cache := none, disk := DiskFile.intact cfg_c9 } }

/-- Witness for C5: the no-threshold AUTO device is skipped on a reading. -/
theorem auto_missing_threshold_skipped_witness :
    ((sys_w5.manager.devices_by_number.map (fun d => d.device_number)).Nodup ∧
      (sys_w5.manager.devices_by_number.map (fun d => d.gpio)).Nodup ∧
      dev_w5 ∈ sys_w5.manager.devices_by_number ∧
      is_auto_mode dev_w5.mode = true ∧ dev_w5.threshold_value = none) ∧
    (read_is_on_by_number
        (handle_power sys_w5 (fun _ => WriteOutcome.atomicOk) (some 1)).fst.manager
        dev_w5.device_number
      = read_is_on_by_number sys_w5.manager dev_w5.device_number ∧
    (handle_power sys_w5 (fun _ => WriteOutcome.atomicOk) (some 1)).fst.manager.pins
        dev_w5.gpio = sys_w5.manager.pins dev_w5.gpio ∧
    (∀ a ∈ (handle_power sys_w5 (fun _ => WriteOutcome.atomicOk) (some 1)).snd,
      ∀ nn, action_device a = some nn → nn ≠ dev_w5.device_number)) :=
  ⟨⟨by decide, by decide, by decide, by decide, by decide⟩,
    auto_missing_threshold_skipped sys_w5 (fun _ => WriteOutcome.atomicOk) 1
      (by decide) (by decide) dev_w5 (by decide) (by decide) (by decide)⟩

theorem get_by_number_number {m : ManagerState} {n : Nat} {d : RuntimeDevice}
    (h : get_by_number m n = some d) : d.device_number = n := by
  unfold get_by_number at h
  simpa using List.find?_some h

theorem read_update_runtime (m : ManagerState) (n : Nat) (mo : DeviceMode)
    (de : Option Bool) (n' : Nat) :
    read_is_on_by_number (update_runtime_device m n mo de) n'
      = read_is_on_by_number m n' := by
  unfold read_is_on_by_number update_runtime_device
  rw [get_by_number_map m _ (preserves_fields_set_mode_desired n mo de) _ n']
  cases h : get_by_number m n'
  · rfl
  · rename_i a
    dsimp only [Option.map]
    rw [(preserves_fields_set_mode_desired n mo de a).2.1,
      (preserves_fields_set_mode_desired n mo de a).2.2]

theorem repo_update_ok {wo : WriteOutcome} (r : Repo) (cand : AgentConfig)
    (hwo : wo.ok = true) :
    Repo.update r cand wo =
      ({ cache := some cand, disk := DiskFile.intact cand }, true) := by
  cases wo
  · rfl
  · rfl
  · exact absurd hwo (by decide)
  · exact absurd hwo (by decide)

theorem lookup_set_config {cfg : AgentConfig} {n : Nat} {dc : DeviceConfig}
    (h : lookup_device cfg n = some dc) (dc' : DeviceConfig) :
    lookup_device (set_config_device cfg n dc') n = some dc' := by
  unfold lookup_device set_config_device at *
  dsimp only
  rw [find?_map_pred (fun kv => if kv.fst = n then (kv.fst, dc') else kv)
    (fun kv => kv.fst == n)
    (fun kv => by by_cases hk : kv.fst = n <;> simp [hk])]
  cases hf : cfg.devices.find? (fun kv => kv.fst == n) with
  | none => rw [hf] at h; cases h
  | some kv0 =>
      have hk : kv0.fst = n := by simpa using List.find?_some hf
      simp [hk]

theorem get_after_update (m : ManagerState) (n : Nat) (mo : DeviceMode)
    (de : Option Bool) {d : RuntimeDevice} (hd : get_by_number m n = some d)
    (hdn : d.device_number = n) :
    get_by_number (update_runtime_device m n mo de) n =
      some { d with mode := mo, desired_state := de } := by
  unfold update_runtime_device
  rw [get_by_number_map m _ (preserves_fields_set_mode_desired n mo de) _ n, hd]
  dsimp only [Option.map]
  unfold set_mode_desired_fn
  rw [if_pos hdn]

theorem repo_load_cached (c : AgentConfig) (dsk : DiskFile) :
    Repo.load { cache := some c, disk := dsk } = ({ cache := some c, disk := dsk }, c) := rfl

theorem sync_ok_eval (sys : SysState) (wo : WriteOutcome) (n : Nat)
    (dc : DeviceConfig) (hcfg : lookup_device (Repo.load sys.repo).snd n = some dc)
    (hwo : wo.ok = true) :
    sync_device_state_to_config sys wo n (some DeviceMode.MANUAL) =
      ({ manager := update_runtime_device sys.manager n DeviceMode.MANUAL
           (some (read_is_on_by_number sys.manager n)),
         repo :=
           { cache := some (set_config_device (Repo.load sys.repo).snd n
               { dc with
                 mode := DeviceMode.MANUAL,
                 desired_state := some (read_is_on_by_number sys.manager n) }),
             disk := DiskFile.intact (set_config_device (Repo.load sys.repo).snd n
               { dc with
                 mode := DeviceMode.MANUAL,
                 desired_state := some (read_is_on_by_number sys.manager n) }) } }, true) := by
  unfold sync_device_state_to_config
  dsimp only
  rw [hcfg]
  dsimp only [Option.getD]
  rw [if_pos rfl, repo_update_ok _ _ hwo]
  rfl

/-- C6: when the device's measured state already equals the requested state,
set_manual_state performs no pin write and emits no backend/stream/heartbeat
action: the trace is exactly the config sync, the pins are untouched, the
persisted config entry records the now-MANUAL mode with the requested
desired_state, and the call returns the device. -/
theorem set_manual_state_idempotent_no_write (sys : SysState) (wo : Nat → WriteOutcome)
    (n : Nat) (b : Bool) (d : RuntimeDevice) (dc : DeviceConfig)
    (hd : get_by_number sys.manager n = some d)
    (hcfg : lookup_device (Repo.load sys.repo).snd n = some dc)
    (hcur : read_is_on_by_number sys.manager n = b)
    (hwo : (wo n).ok = true) :
    (∃ d', (set_manual_state sys wo n b).snd.snd = some d' ∧
      d'.mode = DeviceMode.MANUAL ∧ d'.desired_state = some b) ∧
    (set_manual_state sys wo n b).snd.fst = [Action.syncConfig n] ∧
    (∀ p, (set_manual_state sys wo n b).fst.manager.pins p = sys.manager.pins p) ∧
    lookup_device (Repo.load (set_manual_state sys wo n b).fst.repo).snd n =
      some { dc with mode := DeviceMode.MANUAL, desired_state := some b } := by
  have hdn : d.device_number = n := get_by_number_number hd
  unfold set_manual_state
  rw [hd]
  dsimp only
  have hm0 : read_is_on_by_number
      (update_runtime_device sys.manager n DeviceMode.MANUAL (some b)) n = b := by
    rw [read_update_runtime]
    exact hcur
  rw [if_pos hm0]
  rw [sync_ok_eval
    { manager := update_runtime_device sys.manager n DeviceMode.MANUAL (some b),
      repo := sys.repo } (wo n) n dc hcfg hwo]
  dsimp only
  rw [if_pos rfl]
  dsimp only
  have hg0 := get_after_update sys.manager n DeviceMode.MANUAL (some b) hd hdn
  have hg1 := get_after_update _ n DeviceMode.MANUAL
    (some (read_is_on_by_number
      (update_runtime_device sys.manager n DeviceMode.MANUAL (some b)) n)) hg0 hdn
  have hg2 := get_after_update _ n DeviceMode.MANUAL
    (some (read_is_on_by_number
      (update_runtime_device sys.manager n DeviceMode.MANUAL (some b)) n)) hg1 hdn
  refine ⟨⟨_, hg2, rfl, ?_⟩, rfl, fun p => rfl, ?_⟩
  · show some (read_is_on_by_number
      (update_runtime_device sys.manager n DeviceMode.MANUAL (some b)) n) = some b
    rw [hm0]
  · rw [repo_load_cached]
    dsimp only
    rw [lookup_set_config hcfg, hm0]

/-- Runtime device for the manual idempotence witness: AUTO device, ON. -/
def dev_w6 : RuntimeDevice :=
  { device_id := 5, device_uuid := "w-5", device_number := 5, gpio := 24,
    active_low := true, mode := DeviceMode.AUTO }

/-- Config entry matching dev_w6. -/
def dc_w6 : DeviceConfig :=
  { device_id := 5, device_uuid := "w-5", device_number := 5, mode := DeviceMode.AUTO }

/-- Domain config for the manual idempotence witness. -/
def cfg_w6 : AgentConfig :=
  { config_version := 2, microcontroller_uuid := "mc-6", provider_uuid := "prov-6",
    heartbeat_interval := 60, device_max := 8, devices := [(5, dc_w6)] }

/-- System state for the manual idempotence witness: the device reads ON. -/
def sys_w6 : SysState :=
  { manager := { devices_by_number := [dev_w6], pins := fun _ => GPIO.LOW },
    repo := { cache := none, disk := DiskFile.intact cfg_w6 } }

/-- Witness for C6: requesting ON while the device already measures ON. -/
theorem set_manual_state_idempotent_no_write_witness :
    (get_by_number sys_w6.manager 5 = some dev_w6 ∧
      lookup_device (Repo.load sys_w6.repo).snd 5 = some dc_w6 ∧
      read_is_on_by_number sys_w6.manager 5 = true ∧
      ((fun _ => WriteOutcome.atomicOk) 5).ok = true) ∧
    ((∃ d', (set_manual_state sys_w6 (fun _ => WriteOutcome.atomicOk) 5 true).snd.snd = some d' ∧
        d'.mode = DeviceMode.MANUAL ∧ d'.desired_state = some true) ∧
      (set_manual_state sys_w6 (fun _ => WriteOutcome.atomicOk) 5 true).snd.fst
        = [Action.syncConfig 5] ∧
      (∀ p, (set_manual_state sys_w6 (fun _ => WriteOutcome.atomicOk) 5 true).fst.manager.pins p
        = sys_w6.manager.pins p) ∧
      lookup_device
        (Repo.load (set_manual_state sys_w6 (fun _ => WriteOutcome.atomicOk) 5 true).fst.repo).snd
        5 = some { dc_w6 with mode := DeviceMode.MANUAL, desired_state := some true }) :=
  ⟨⟨by decide, by decide, by decide, by decide⟩,
    set_manual_state_idempotent_no_write sys_w6 (fun _ => WriteOutcome.atomicOk) 5 true
      dev_w6 dc_w6 (by decide) (by decide) (by decide) (by decide)⟩

end SmartAgent
